import Mathlib

/-!
Verification development for the scan core of the iwd wireless daemon
(file src/scan.c of the repository).

The C sources are shallowly embedded: pure C functions become Lean
functions, machine integers become Nat with explicit reductions modulo
2 ^ w where overflow matters, C doubles (only used by the BSS rank
computation) are modelled by exact rational arithmetic, fallible code
returns Option, and the event-driven request pipeline becomes an
explicit step function on a state record emitting a trace of user
callback events.

Collaborators of scan.c that are not part of the repository sources
(the radio work queue of the modern wiphy.c, ie.c's TLV iterator,
knownnetworks.c) are modelled from the specification and marked as
such in their doc comments.
-/

namespace Scan

/-! ## BSS rank computation (scan_bss_compute_rank, src/scan.c:1565-1594)

The C function works on doubles; here the arithmetic is modelled
exactly over the rationals.  `USHRT_MAX = 65535`.  The final
`uint32_t irank = rank` cast truncates toward zero, modelled by the
floor on the (non-negative) rational.  `RANK_5G_FACTOR` is the
configured BandModifier5Ghz value (default 1.0), passed explicitly. -/

/-- Model of `scan_bss_compute_rank`: inputs are the BSS `data_rate`
(bits/s), `frequency` (MHz) and `utilization` byte together with the
configured `RANK_5G_FACTOR`; output is the unsigned 16-bit rank. -/
def scan_bss_compute_rank (rank5gFactor : ℚ) (data_rate frequency utilization : ℕ) :
    ℕ :=
  let max_rate : ℚ := 2340000000
  let rank0 : ℚ := (data_rate : ℚ) / max_rate * 65535
  /- Prefer 5G networks over 2.4G -/
  let rank1 : ℚ := if frequency > 4000 then rank0 * rank5gFactor else rank0
  /- Rank loaded APs lower and lightly loaded APs higher;
     RANK_HIGH_UTILIZATION_FACTOR = 0.8, RANK_LOW_UTILIZATION_FACTOR = 1.2 -/
  let rank2 : ℚ :=
    if utilization ≥ 192 then rank1 * (8 / 10)
    else if utilization ≤ 63 then rank1 * (12 / 10)
    else rank1
  let irank : ℕ := (⌊rank2⌋).toNat
  if irank > 65535 then 65535 else irank

/-- The rank formula exactly as the specification words it (§4.3):
`rank = data_rate / 2_340_000_000 * 65535`, multiplied by
`RANK_5G_FACTOR` when `frequency > 4000`, then by 0.8 when
`utilization ≥ 192` or by 1.2 when `utilization ≤ 63`, cast to an
unsigned integer saturating at 65535. -/
def rankSpecFormula (rank5gFactor : ℚ) (data_rate frequency utilization : ℕ) : ℕ :=
  let base : ℚ := (data_rate : ℚ) / 2340000000 * 65535
  let with5g : ℚ := if frequency > 4000 then base * rank5gFactor else base
  let withUtil : ℚ :=
    if utilization ≥ 192 then with5g * (8 / 10)
    else if utilization ≤ 63 then with5g * (12 / 10)
    else with5g
  min (⌊withUtil⌋).toNat 65535

/-! ## Periodic scan interval backoff (scan_periodic_timeout, src/scan.c:1039-1060,
and the clamping in scan_init, src/scan.c:2148-2160)

`sp.interval` is a `uint16_t`, so the `sc->sp.interval *= 2` in
`scan_periodic_timeout` is computed modulo 2^16.  `SCAN_INIT_INTERVAL`
and `SCAN_MAX_INTERVAL` are `uint32_t` configuration values clamped to
`UINT16_MAX` by `scan_init`. -/

/-- Clamping applied by `scan_init` to the configured
InitialPeriodicScanInterval / MaximumPeriodicScanInterval values:
values above `UINT16_MAX` become 65535. -/
def scan_init_clamp (v : ℕ) : ℕ :=
  if v > 65535 then 65535 else v

/-- One backoff step of `scan_periodic_timeout` when no periodic
request is in flight: `sp.interval *= 2` (uint16 arithmetic, hence
modulo 2^16) followed by the clamp to `SCAN_MAX_INTERVAL`. -/
def scan_periodic_backoff (scanMaxInterval i : ℕ) : ℕ :=
  if 2 * i % 65536 > scanMaxInterval then scanMaxInterval else 2 * i % 65536

/-- The sequence of stored periodic intervals: `sp.interval` starts at
`SCAN_INIT_INTERVAL` (set by `scan_periodic_start`) and each backoff
step applies `scan_periodic_backoff`. -/
def scan_periodic_intervals (scanMaxInterval scanInitInterval : ℕ) : ℕ → ℕ
  | 0 => scanInitInterval
  | n + 1 => scan_periodic_backoff scanMaxInterval
      (scan_periodic_intervals scanMaxInterval scanInitInterval n)

lemma ite_saturate_eq_min (n : ℕ) :
    (if n > 65535 then 65535 else n) = min n 65535 := by
  split <;> omega

lemma ite_saturate_le (n : ℕ) :
    (if n > 65535 then (65535 : ℕ) else n) ≤ 65535 := by
  split <;> omega

lemma scan_periodic_backoff_eq_min (maxI i : ℕ) (hi : i ≤ maxI)
    (hmax : maxI ≤ 32767) :
    scan_periodic_backoff maxI i = min (2 * i) maxI := by
  unfold scan_periodic_backoff
  have h2 : 2 * i % 65536 = 2 * i := Nat.mod_eq_of_lt (by omega)
  rw [h2]
  split <;> omega

/-! ## Trigger command building (scan_build_cmd, src/scan.c:348-450;
scan_build_attr_ie, src/scan.c:293-333; scan_cmds_add_hidden,
src/scan.c:490-519; scan_cmds_add, src/scan.c:521-560)

A netlink trigger message is modelled as the ordered list of
attributes appended to it.  The wiphy capabilities consulted by the
builder (`wiphy_get_max_scan_ie_len`, `wiphy_get_extended_capabilities`,
`wiphy_get_max_num_ssids_per_scan`, `wiphy_can_randomize_mac_addr`,
`wiphy_has_ext_feature`, `wiphy_get_supported_rates`) live in wiphy.c
of the modern tree, which is not among the repository sources; they
are modelled from the specification (§6.3) as fields of a `Wiphy`
record.  Likewise `known_networks_foreach` (§6.3) is modelled as a
fold over a list of `NetworkInfo` entries in iteration order. -/

/-- nl80211 constants used by the builder (linux/nl80211.h). -/
def NL80211_SCAN_FLAG_FLUSH : ℕ := 2

def NL80211_SCAN_FLAG_RANDOM_ADDR : ℕ := 8

def NL80211_SCAN_FLAG_RANDOM_SN : ℕ := 2048

def NL80211_BAND_2GHZ : ℕ := 0

def IE_TYPE_INTERWORKING : ℕ := 107

/-- Modelled from the spec (§6.3): the wiphy capabilities consulted by
scan.c.  `supportedRates2ghz = none` models
`wiphy_get_supported_rates` returning NULL. -/
structure Wiphy where
  maxScanIeLen : ℕ
  extCapa : List ℕ
  maxNumSsidsPerScan : ℕ
  canRandomizeMacAddr : Bool
  hasScanRandomSn : Bool
  hasSetScanDwell : Bool
  supportedRates2ghz : Option (List ℕ)
  deriving Repr, DecidableEq

/-- `struct scan_parameters` (src/scan.h).  `ssid = none` models a
NULL `ssid` pointer, `extra_ie = []` a missing extra IE,
`source_mac = none` a NULL source MAC, `duration = 0` an unset
duration. -/
structure ScanParameters where
  freqs : Option (List ℕ) := none
  ssid : Option (List ℕ) := none
  extra_ie : List ℕ := []
  flush : Bool := false
  randomize_mac_addr_hint : Bool := false
  source_mac : Option (List ℕ) := none
  no_cck_rates : Bool := false
  duration : ℕ := 0
  duration_mandatory : Bool := false
  deriving Repr, DecidableEq

/-- One attribute of a trigger-scan netlink message, in append order. -/
inductive Attr where
  | wdev : Attr
  | ie (bytes : List ℕ) : Attr
  | scanFrequencies (freqs : List ℕ) : Attr
  | mac (addr : List ℕ) : Attr
  | macMask (mask : List ℕ) : Attr
  | scanFlags (flags : ℕ) : Attr
  | txNoCckRate : Attr
  | scanSuppRates (band : ℕ) (rates : List ℕ) : Attr
  | measurementDuration (d : ℕ) : Attr
  | measurementDurationMandatory : Attr
  | scanSsids (ssids : List (List ℕ)) : Attr
  deriving Repr, DecidableEq

/-- `scan_build_attr_ie`: extended capabilities (first
`ext_capa[1] + 2` bytes), then the interworking descriptor when bit 7
of `ext_capa[2+3]` is set, then the caller's extra IE. -/
def scan_build_attr_ie (w : Wiphy) (p : ScanParameters) : List ℕ :=
  let extCapaBytes := w.extCapa.take (w.extCapa.getD 1 0 + 2)
  let interworking :=
    if Nat.testBit (w.extCapa.getD 5 0) 7 then [IE_TYPE_INTERWORKING, 1, 0] else []
  extCapaBytes ++ interworking ++ p.extra_ie

/-- The scan-flags bitfield accumulated by `scan_build_cmd`
(`flags |= ...` in source order): FLUSH when requested and not a
continuation segment, RANDOM_ADDR from the randomization hint or a
fixed source MAC, RANDOM_SN when the wiphy supports it.
`macRandDisabled` is the config key DisableMacAddressRandomization. -/
def scan_cmd_flags (w : Wiphy) (macRandDisabled ignore_flush_flag is_passive : Bool)
    (p : ScanParameters) : ℕ :=
  (if p.flush ∧ ¬ignore_flush_flag then NL80211_SCAN_FLAG_FLUSH else 0) |||
  (if ¬is_passive ∧ p.randomize_mac_addr_hint ∧ w.canRandomizeMacAddr ∧
      ¬macRandDisabled then NL80211_SCAN_FLAG_RANDOM_ADDR else 0) |||
  (if ¬is_passive ∧ p.source_mac.isSome ∧ w.canRandomizeMacAddr then
    NL80211_SCAN_FLAG_RANDOM_ADDR else 0) |||
  (if ¬is_passive ∧ w.hasScanRandomSn then NL80211_SCAN_FLAG_RANDOM_SN else 0)

/-- The filter applied to the supported 2.4 GHz rates when
`no_cck_rates` is set: drop the four 802.11b CCK rates
`{2, 4, 11, 22}` (the `memchr(b_rates, ...)` test). -/
def scan_cck_filter (supported : List ℕ) : List ℕ :=
  supported.filter (fun r => ¬(r = 2 ∨ r = 4 ∨ r = 11 ∨ r = 22))

/-- The attributes appended by the `params->no_cck_rates` block of
`scan_build_cmd`: the TX_NO_CCK_RATE flag attribute, then the
supported 2.4 GHz rates minus the four 802.11b CCK rates as a nested
supported-rates attribute.  When the rate lookup fails
(`supportedRates2ghz = none`, a warning in the source) or the filtered
set is empty (also a warning), the code jumps to `done` right after
the flag attribute. -/
def scan_cmd_cck_attrs (w : Wiphy) (p : ScanParameters) : List Attr :=
  if p.no_cck_rates then
    match w.supportedRates2ghz with
    | none => [Attr.txNoCckRate]
    | some supported =>
      if scan_cck_filter supported = [] then [Attr.txNoCckRate]
      else [Attr.txNoCckRate,
        Attr.scanSuppRates NL80211_BAND_2GHZ (scan_cck_filter supported)]
  else []

/-- Whether the `no_cck_rates` block falls through to the scan-dwell
section (`true`) or jumps to `done` skipping it (`false`). -/
def scan_cmd_cck_done (w : Wiphy) (p : ScanParameters) : Bool :=
  if p.no_cck_rates then
    match w.supportedRates2ghz with
    | none => false
    | some supported => if scan_cck_filter supported = [] then false else true
  else true

/-- The scan-dwell section of `scan_build_cmd` (skipped when the
no-CCK block jumped to `done`). -/
def scan_cmd_dwell_segment (w : Wiphy) (p : ScanParameters) : List Attr :=
  if w.hasSetScanDwell then
    (if p.duration ≠ 0 then [Attr.measurementDuration p.duration] else []) ++
    (if p.duration_mandatory then [Attr.measurementDurationMandatory] else [])
  else []

/-- The probe-request IE attribute segment of `scan_build_cmd`:
present when the radio advertises a nonzero max scan IE length. -/
def scan_cmd_ie_segment (w : Wiphy) (p : ScanParameters) : List Attr :=
  if w.maxScanIeLen ≠ 0 then [Attr.ie (scan_build_attr_ie w p)] else []

/-- The scan-frequencies attribute segment of `scan_build_cmd`:
present when the caller supplied a frequency set. -/
def scan_cmd_freq_segment (p : ScanParameters) : List Attr :=
  match p.freqs with
  | some fs => [Attr.scanFrequencies fs]
  | none => []

/-- The fixed source-MAC segment of `scan_build_cmd`: for active scans
on a radio that can randomize its MAC, a caller-supplied source MAC is
attached together with an all-ones mask (no random bits). -/
def scan_cmd_mac_segment (w : Wiphy) (is_passive : Bool)
    (p : ScanParameters) : List Attr :=
  match p.source_mac with
  | some m =>
    if ¬is_passive ∧ w.canRandomizeMacAddr then
      [Attr.mac m, Attr.macMask [255, 255, 255, 255, 255, 255]]
    else []
  | none => []

/-- The scan-flags attribute segment of `scan_build_cmd`: appended
only when the accumulated flags are nonzero. -/
def scan_cmd_flags_segment (w : Wiphy) (macRandDisabled : Bool)
    (ignore_flush_flag is_passive : Bool) (p : ScanParameters) : List Attr :=
  if scan_cmd_flags w macRandDisabled ignore_flush_flag is_passive p ≠ 0 then
    [Attr.scanFlags (scan_cmd_flags w macRandDisabled ignore_flush_flag is_passive p)]
  else []

/-- The scan-dwell segment guarded by the no-CCK block's `goto done`:
skipped entirely when that block jumped to `done`. -/
def scan_cmd_dwell_guarded (w : Wiphy) (p : ScanParameters) : List Attr :=
  if scan_cmd_cck_done w p then scan_cmd_dwell_segment w p else []

/-- `scan_build_cmd`: the trigger message as the ordered list of
appended attributes (wdev id, probe IEs, frequencies, source MAC and
mask, scan flags, the no-CCK block, scan dwell). -/
def scan_build_cmd (w : Wiphy) (macRandDisabled : Bool)
    (ignore_flush_flag is_passive : Bool) (p : ScanParameters) : List Attr :=
  [Attr.wdev] ++
  scan_cmd_ie_segment w p ++
  scan_cmd_freq_segment p ++
  scan_cmd_mac_segment w is_passive p ++
  scan_cmd_flags_segment w macRandDisabled ignore_flush_flag is_passive p ++
  scan_cmd_cck_attrs w p ++
  scan_cmd_dwell_guarded w p

/-- Modelled from the spec (§6.3): one known-network entry as observed
by `known_networks_foreach` (its `ssid` and `is_hidden` flag). -/
structure NetworkInfo where
  ssid : List ℕ
  isHidden : Bool
  deriving Repr, DecidableEq

/-- The fold state threaded through `scan_cmds_add_hidden`
(`struct scan_cmds_add_data` plus the `cmd` variable of
`scan_cmds_add` it points into): finished commands, the trigger
message currently being built, the SSIDs appended to its open SSID
sub-list, and the `num_ssids_can_append` uint8 counter. -/
structure CmdsAddAcc where
  cmds : List (List Attr)
  curBase : List Attr
  curSsids : List (List ℕ)
  canAppend : ℕ
  deriving Repr, DecidableEq

/-- `scan_cmds_add_hidden`: skip non-hidden networks; append the SSID
and decrement the uint8 counter (modulo 256); when it reaches zero
close the sub-list, push the command, and start a fresh trigger built
with the flush flag ignored. -/
def scan_cmds_add_hidden (w : Wiphy) (macRandDisabled : Bool) (p : ScanParameters)
    (net : NetworkInfo) (acc : CmdsAddAcc) : CmdsAddAcc :=
  if ¬net.isHidden then acc
  else
    let curSsids := acc.curSsids ++ [net.ssid]
    let canAppend := (acc.canAppend + 255) % 256
    if canAppend = 0 then
      { cmds := acc.cmds ++ [acc.curBase ++ [Attr.scanSsids curSsids]]
        curBase := scan_build_cmd w macRandDisabled true false p
        curSsids := []
        canAppend := w.maxNumSsidsPerScan }
    else { acc with curSsids := curSsids, canAppend := canAppend }

/-- `scan_cmds_add`: build the first trigger; passive scans get no
SSID sub-list; an explicit SSID gives a single direct probe command;
otherwise iterate the known networks through `scan_cmds_add_hidden`
and finally append the wildcard (empty) SSID to the last command. -/
def scan_cmds_add (w : Wiphy) (macRandDisabled passive : Bool)
    (p : ScanParameters) (networks : List NetworkInfo) : List (List Attr) :=
  let cmd := scan_build_cmd w macRandDisabled false passive p
  if passive then [cmd]
  else
    match p.ssid with
    | some s => [cmd ++ [Attr.scanSsids [s]]]
    | none =>
      let acc := networks.foldl
        (fun a net => scan_cmds_add_hidden w macRandDisabled p net a)
        { cmds := [], curBase := cmd, curSsids := [],
          canAppend := w.maxNumSsidsPerScan }
      acc.cmds ++ [acc.curBase ++ [Attr.scanSsids (acc.curSsids ++ [[]])]]

/-- All SSIDs carried in a message's SSID sub-list attributes
(each trigger built by `scan_cmds_add` carries at most one). -/
def msgSsidsOf (msg : List Attr) : List (List ℕ) :=
  (msg.filterMap fun a =>
    match a with
    | Attr.scanSsids l => some l
    | _ => none).flatten

/-- Whether a message carries the FLUSH scan flag (bit 1 of a
scan-flags attribute). -/
def msgFlushFlag (msg : List Attr) : Bool :=
  msg.any fun a =>
    match a with
    | Attr.scanFlags fl => fl.testBit 1
    | _ => false

/-- All nested supported-rates attributes of a message. -/
def msgSuppRatesOf (msg : List Attr) : List (ℕ × List ℕ) :=
  msg.filterMap fun a =>
    match a with
    | Attr.scanSuppRates b r => some (b, r)
    | _ => none

lemma msgSsidsOf_append (a b : List Attr) :
    msgSsidsOf (a ++ b) = msgSsidsOf a ++ msgSsidsOf b := by
  simp [msgSsidsOf, List.filterMap_append]

lemma msgFlushFlag_append (a b : List Attr) :
    msgFlushFlag (a ++ b) = (msgFlushFlag a || msgFlushFlag b) := by
  simp [msgFlushFlag]

lemma msgSuppRatesOf_append (a b : List Attr) :
    msgSuppRatesOf (a ++ b) = msgSuppRatesOf a ++ msgSuppRatesOf b := by
  simp [msgSuppRatesOf, List.filterMap_append]

/-- Bit 1 (the FLUSH bit) of the accumulated scan flags is set exactly
when a flush was requested and this is not a continuation segment. -/
lemma scan_cmd_flags_testBit_one (w : Wiphy) (mrd ig pas : Bool)
    (p : ScanParameters) :
    (scan_cmd_flags w mrd ig pas p).testBit 1 = (p.flush && !ig) := by
  unfold scan_cmd_flags NL80211_SCAN_FLAG_FLUSH NL80211_SCAN_FLAG_RANDOM_ADDR
    NL80211_SCAN_FLAG_RANDOM_SN
  have t0 : Nat.testBit 0 1 = false := by decide
  have t2 : Nat.testBit 2 1 = true := by decide
  have t8 : Nat.testBit 8 1 = false := by decide
  have t2048 : Nat.testBit 2048 1 = false := by decide
  rw [Nat.testBit_or, Nat.testBit_or, Nat.testBit_or,
    apply_ite (fun n => Nat.testBit n 1), apply_ite (fun n => Nat.testBit n 1),
    apply_ite (fun n => Nat.testBit n 1), apply_ite (fun n => Nat.testBit n 1)]
  simp only [t0, t2, t8, t2048, ite_self, Bool.or_false]
  cases hpf : p.flush <;> cases hig : ig <;> simp

lemma msgSsidsOf_ie_segment (w : Wiphy) (p : ScanParameters) :
    msgSsidsOf (scan_cmd_ie_segment w p) = [] := by
  unfold scan_cmd_ie_segment; split_ifs <;> rfl

lemma msgSsidsOf_freq_segment (p : ScanParameters) :
    msgSsidsOf (scan_cmd_freq_segment p) = [] := by
  unfold scan_cmd_freq_segment; cases p.freqs <;> rfl

lemma msgSsidsOf_mac_segment (w : Wiphy) (pas : Bool) (p : ScanParameters) :
    msgSsidsOf (scan_cmd_mac_segment w pas p) = [] := by
  unfold scan_cmd_mac_segment
  cases p.source_mac <;> dsimp only <;> (try split_ifs) <;> rfl

lemma msgSsidsOf_flags_segment (w : Wiphy) (mrd ig pas : Bool)
    (p : ScanParameters) :
    msgSsidsOf (scan_cmd_flags_segment w mrd ig pas p) = [] := by
  unfold scan_cmd_flags_segment; split_ifs <;> rfl

lemma msgSsidsOf_cck (w : Wiphy) (p : ScanParameters) :
    msgSsidsOf (scan_cmd_cck_attrs w p) = [] := by
  unfold scan_cmd_cck_attrs
  cases w.supportedRates2ghz <;> dsimp only <;> split_ifs <;> rfl

lemma msgSsidsOf_dwell_guarded (w : Wiphy) (p : ScanParameters) :
    msgSsidsOf (scan_cmd_dwell_guarded w p) = [] := by
  unfold scan_cmd_dwell_guarded scan_cmd_dwell_segment
  split_ifs <;> simp [msgSsidsOf]

/-- `scan_build_cmd` itself never appends an SSID sub-list. -/
lemma msgSsidsOf_scan_build_cmd (w : Wiphy) (mrd ig pas : Bool)
    (p : ScanParameters) :
    msgSsidsOf (scan_build_cmd w mrd ig pas p) = [] := by
  rw [scan_build_cmd]
  simp only [msgSsidsOf_append, msgSsidsOf_ie_segment, msgSsidsOf_freq_segment,
    msgSsidsOf_mac_segment, msgSsidsOf_flags_segment, msgSsidsOf_cck,
    msgSsidsOf_dwell_guarded, List.append_nil]
  rfl

lemma msgFlushFlag_ie_segment (w : Wiphy) (p : ScanParameters) :
    msgFlushFlag (scan_cmd_ie_segment w p) = false := by
  unfold scan_cmd_ie_segment; split_ifs <;> rfl

lemma msgFlushFlag_freq_segment (p : ScanParameters) :
    msgFlushFlag (scan_cmd_freq_segment p) = false := by
  unfold scan_cmd_freq_segment; cases p.freqs <;> rfl

lemma msgFlushFlag_mac_segment (w : Wiphy) (pas : Bool) (p : ScanParameters) :
    msgFlushFlag (scan_cmd_mac_segment w pas p) = false := by
  unfold scan_cmd_mac_segment
  cases p.source_mac <;> dsimp only <;> (try split_ifs) <;> rfl

lemma msgFlushFlag_cck (w : Wiphy) (p : ScanParameters) :
    msgFlushFlag (scan_cmd_cck_attrs w p) = false := by
  unfold scan_cmd_cck_attrs
  cases w.supportedRates2ghz <;> dsimp only <;> split_ifs <;> rfl

lemma msgFlushFlag_dwell_guarded (w : Wiphy) (p : ScanParameters) :
    msgFlushFlag (scan_cmd_dwell_guarded w p) = false := by
  unfold scan_cmd_dwell_guarded scan_cmd_dwell_segment
  split_ifs <;> simp [msgFlushFlag]

lemma msgFlushFlag_flags_segment (w : Wiphy) (mrd ig pas : Bool)
    (p : ScanParameters) :
    msgFlushFlag (scan_cmd_flags_segment w mrd ig pas p) = (p.flush && !ig) := by
  have hbit := scan_cmd_flags_testBit_one w mrd ig pas p
  unfold scan_cmd_flags_segment
  split_ifs with hfl
  · simpa [msgFlushFlag] using hbit
  · have h0 : scan_cmd_flags w mrd ig pas p = 0 := by
      by_contra hc
      exact hfl hc
    rw [h0] at hbit
    simp only [msgFlushFlag, List.any_nil]
    rw [← hbit]
    decide

/-- The FLUSH bit of a built trigger message: present exactly when the
caller requested a flush and the builder was not told to ignore it. -/
lemma msgFlushFlag_scan_build_cmd (w : Wiphy) (mrd ig pas : Bool)
    (p : ScanParameters) :
    msgFlushFlag (scan_build_cmd w mrd ig pas p) = (p.flush && !ig) := by
  rw [scan_build_cmd]
  simp only [msgFlushFlag_append, msgFlushFlag_ie_segment,
    msgFlushFlag_freq_segment, msgFlushFlag_mac_segment,
    msgFlushFlag_flags_segment, msgFlushFlag_cck, msgFlushFlag_dwell_guarded,
    Bool.or_false, Bool.false_or]
  rfl

lemma msgSuppRatesOf_ie_segment (w : Wiphy) (p : ScanParameters) :
    msgSuppRatesOf (scan_cmd_ie_segment w p) = [] := by
  unfold scan_cmd_ie_segment; split_ifs <;> rfl

lemma msgSuppRatesOf_freq_segment (p : ScanParameters) :
    msgSuppRatesOf (scan_cmd_freq_segment p) = [] := by
  unfold scan_cmd_freq_segment; cases p.freqs <;> rfl

lemma msgSuppRatesOf_mac_segment (w : Wiphy) (pas : Bool) (p : ScanParameters) :
    msgSuppRatesOf (scan_cmd_mac_segment w pas p) = [] := by
  unfold scan_cmd_mac_segment
  cases p.source_mac <;> dsimp only <;> (try split_ifs) <;> rfl

lemma msgSuppRatesOf_flags_segment (w : Wiphy) (mrd ig pas : Bool)
    (p : ScanParameters) :
    msgSuppRatesOf (scan_cmd_flags_segment w mrd ig pas p) = [] := by
  unfold scan_cmd_flags_segment; split_ifs <;> rfl

lemma msgSuppRatesOf_dwell_guarded (w : Wiphy) (p : ScanParameters) :
    msgSuppRatesOf (scan_cmd_dwell_guarded w p) = [] := by
  unfold scan_cmd_dwell_guarded scan_cmd_dwell_segment
  split_ifs <;> simp [msgSuppRatesOf]

/-- The supported-rates attributes of a built trigger message are
exactly those of its no-CCK segment. -/
lemma msgSuppRatesOf_scan_build_cmd (w : Wiphy) (mrd ig pas : Bool)
    (p : ScanParameters) :
    msgSuppRatesOf (scan_build_cmd w mrd ig pas p) =
      msgSuppRatesOf (scan_cmd_cck_attrs w p) := by
  rw [scan_build_cmd]
  simp only [msgSuppRatesOf_append, msgSuppRatesOf_ie_segment,
    msgSuppRatesOf_freq_segment, msgSuppRatesOf_mac_segment,
    msgSuppRatesOf_flags_segment, msgSuppRatesOf_dwell_guarded,
    List.append_nil]
  rfl

/-- Whenever `no_cck_rates` is requested, the TX_NO_CCK_RATE flag
attribute is appended, unconditionally. -/
lemma txNoCckRate_mem_scan_build_cmd (w : Wiphy) (mrd ig pas : Bool)
    (p : ScanParameters) (h : p.no_cck_rates = true) :
    Attr.txNoCckRate ∈ scan_build_cmd w mrd ig pas p := by
  have hmem : Attr.txNoCckRate ∈ scan_cmd_cck_attrs w p := by
    unfold scan_cmd_cck_attrs
    cases w.supportedRates2ghz <;> simp only [h, if_true] <;>
      (try split_ifs) <;> simp
  rw [scan_build_cmd]
  simp only [List.mem_append]
  exact Or.inl (Or.inr hmem)

/-- Specification-side description of the SSID sub-lists produced by
the hidden-network batching: consuming the hidden SSIDs with `k` slots
left in the current sub-list `c`, a sub-list is closed each time it
reaches the per-scan maximum `m`, and the wildcard (empty) SSID is
appended to the final sub-list. -/
def ssidChunks (m : ℕ) : List (List ℕ) → ℕ → List (List ℕ) →
    List (List (List ℕ))
  | c, _, [] => [c ++ [[]]]
  | c, k, x :: xs =>
    if k = 1 then (c ++ [x]) :: ssidChunks m [] m xs
    else ssidChunks m (c ++ [x]) (k - 1) xs

/-- The hidden-network fold of `scan_cmds_add`, restricted to the
hidden SSIDs (every entry hidden). -/
def scan_cmds_add_hidden_run (w : Wiphy) (mrd : Bool) (p : ScanParameters)
    (hs : List (List ℕ)) (acc : CmdsAddAcc) : CmdsAddAcc :=
  hs.foldl (fun a s => scan_cmds_add_hidden w mrd p ⟨s, true⟩ a) acc

/-- The tail of `scan_cmds_add`: close the last sub-list with the
wildcard SSID appended and push the command. -/
def cmds_add_finalize (acc : CmdsAddAcc) : List (List Attr) :=
  acc.cmds ++ [acc.curBase ++ [Attr.scanSsids (acc.curSsids ++ [[]])]]

/-- The fold over all known networks ignores non-hidden entries and
only depends on the hidden entries' SSIDs, in order. -/
lemma cmds_add_fold_filter (w : Wiphy) (mrd : Bool) (p : ScanParameters)
    (nets : List NetworkInfo) (acc : CmdsAddAcc) :
    nets.foldl (fun a net => scan_cmds_add_hidden w mrd p net a) acc =
      scan_cmds_add_hidden_run w mrd p
        ((nets.filter (fun n => n.isHidden)).map (fun n => n.ssid)) acc := by
  induction nets generalizing acc with
  | nil => rfl
  | cons n rest ih =>
    cases hn : n.isHidden
    · have hstep : scan_cmds_add_hidden w mrd p n acc = acc := by
        simp [scan_cmds_add_hidden, hn]
      simp [List.filter_cons, hn, List.foldl_cons, hstep, ih]
    · have hstep : scan_cmds_add_hidden w mrd p n acc =
          scan_cmds_add_hidden w mrd p ⟨n.ssid, true⟩ acc := by
        simp [scan_cmds_add_hidden, hn]
      simp [List.filter_cons, hn, List.foldl_cons, hstep, ih,
        scan_cmds_add_hidden_run]

lemma msgSsidsOf_scanSsids_singleton (l : List (List ℕ)) :
    msgSsidsOf [Attr.scanSsids l] = l := by
  simp [msgSsidsOf]

lemma msgFlushFlag_scanSsids_singleton (l : List (List ℕ)) :
    msgFlushFlag [Attr.scanSsids l] = false := rfl

/-- The chunk list is never empty (there is always the final command
carrying the wildcard SSID). -/
lemma ssidChunks_ne_nil (m : ℕ) :
    ∀ (hs : List (List ℕ)) (c : List (List ℕ)) (k : ℕ),
      ssidChunks m c k hs ≠ [] := by
  intro hs
  induction hs with
  | nil => intro c k; simp [ssidChunks]
  | cons x xs ih =>
    intro c k
    by_cases hk : k = 1 <;> simp [ssidChunks, hk, ih]

/-- Wildcard flattening: the chunked SSID lists, concatenated, are
exactly the hidden SSIDs followed by the wildcard empty SSID. -/
lemma ssidChunks_flatten (m : ℕ) :
    ∀ (hs : List (List ℕ)) (c : List (List ℕ)) (k : ℕ),
      (ssidChunks m c k hs).flatten = c ++ hs ++ [[]] := by
  intro hs
  induction hs with
  | nil => intro c k; simp [ssidChunks]
  | cons x xs ih =>
    intro c k
    by_cases hk : k = 1
    · simp [ssidChunks, hk, ih]
    · simp [ssidChunks, hk, ih]

/-- Every chunk except the final one is full: it carries exactly the
per-scan maximum number of SSIDs. -/
lemma ssidChunks_dropLast_length (m : ℕ) :
    ∀ (hs : List (List ℕ)) (c : List (List ℕ)) (k : ℕ),
      1 ≤ k → c.length + k = m →
      ∀ l ∈ (ssidChunks m c k hs).dropLast, l.length = m := by
  intro hs
  induction hs with
  | nil => intro c k _ _ l hl; simp [ssidChunks] at hl
  | cons x xs ih =>
    intro c k hk hinv l hl
    by_cases hk1 : k = 1
    · rw [ssidChunks, if_pos hk1] at hl
      have hne : ssidChunks m [] m xs ≠ [] := ssidChunks_ne_nil m xs [] m
      rw [List.dropLast_cons_of_ne_nil hne] at hl
      rcases List.mem_cons.mp hl with h | h
      · subst h
        simp only [List.length_append, List.length_cons, List.length_nil]
        omega
      · by_cases hm1 : 1 ≤ m
        · exact ih [] m hm1 (by simp) l h
        · omega
    · rw [ssidChunks, if_neg hk1] at hl
      refine ih (c ++ [x]) (k - 1) (by omega) ?_ l hl
      simp only [List.length_append, List.length_cons, List.length_nil]
      omega

/-- The core induction for the hidden-network batching of
`scan_cmds_add`: running the fold over the hidden SSIDs `hs` from an
accumulator with a partially filled sub-list and then finalizing
yields `1 + (|hs| + used) / m` further commands whose SSID sub-lists
are the `ssidChunks` and whose FLUSH bit is that of the current base
for the first of them and cleared for all later ones. -/
lemma cmds_add_hidden_master (w : Wiphy) (mrd : Bool) (p : ScanParameters)
    (hm255 : w.maxNumSsidsPerScan ≤ 255) (hs : List (List ℕ)) :
    ∀ (acc : CmdsAddAcc),
      1 ≤ acc.canAppend → acc.canAppend ≤ w.maxNumSsidsPerScan →
      msgSsidsOf acc.curBase = [] →
      (cmds_add_finalize (scan_cmds_add_hidden_run w mrd p hs acc)).length =
          acc.cmds.length + 1 +
            (hs.length + (w.maxNumSsidsPerScan - acc.canAppend)) /
              w.maxNumSsidsPerScan ∧
        (cmds_add_finalize (scan_cmds_add_hidden_run w mrd p hs acc)).map
            msgSsidsOf =
          acc.cmds.map msgSsidsOf ++
            ssidChunks w.maxNumSsidsPerScan acc.curSsids acc.canAppend hs ∧
        (cmds_add_finalize (scan_cmds_add_hidden_run w mrd p hs acc)).map
            msgFlushFlag =
          acc.cmds.map msgFlushFlag ++
            msgFlushFlag acc.curBase ::
              List.replicate
                ((hs.length + (w.maxNumSsidsPerScan - acc.canAppend)) /
                  w.maxNumSsidsPerScan) false := by
  induction hs with
  | nil =>
    intro acc h1 h2 hbase
    have hrun : scan_cmds_add_hidden_run w mrd p [] acc = acc := rfl
    have hdiv : (List.length ([] : List (List ℕ)) +
        (w.maxNumSsidsPerScan - acc.canAppend)) / w.maxNumSsidsPerScan = 0 :=
      Nat.div_eq_of_lt (by simp; omega)
    rw [hrun]
    unfold cmds_add_finalize
    refine ⟨?_, ?_, ?_⟩
    · rw [hdiv]; simp
    · rw [List.map_append]
      simp only [List.map_cons, List.map_nil, msgSsidsOf_append, hbase,
        msgSsidsOf_scanSsids_singleton]
      simp [ssidChunks]
    · rw [hdiv, List.map_append]
      simp only [List.map_cons, List.map_nil, msgFlushFlag_append,
        msgFlushFlag_scanSsids_singleton]
      simp
  | cons x xs ih =>
    intro acc h1 h2 hbase
    have hm1 : 1 ≤ w.maxNumSsidsPerScan := le_trans h1 h2
    have hm0 : 0 < w.maxNumSsidsPerScan := hm1
    have hstep : scan_cmds_add_hidden_run w mrd p (x :: xs) acc =
        scan_cmds_add_hidden_run w mrd p xs
          (scan_cmds_add_hidden w mrd p ⟨x, true⟩ acc) := rfl
    have hdec : (acc.canAppend + 255) % 256 = acc.canAppend - 1 := by omega
    by_cases hk : acc.canAppend = 1
    · have hstep2 : scan_cmds_add_hidden w mrd p ⟨x, true⟩ acc =
          { cmds := acc.cmds ++
              [acc.curBase ++ [Attr.scanSsids (acc.curSsids ++ [x])]]
            curBase := scan_build_cmd w mrd true false p
            curSsids := []
            canAppend := w.maxNumSsidsPerScan } := by
        unfold scan_cmds_add_hidden
        simp [hdec, hk]
      obtain ⟨ihlen, ihssids, ihflush⟩ :=
        ih { cmds := acc.cmds ++
              [acc.curBase ++ [Attr.scanSsids (acc.curSsids ++ [x])]]
             curBase := scan_build_cmd w mrd true false p
             curSsids := []
             canAppend := w.maxNumSsidsPerScan }
          hm1 (le_refl _) (msgSsidsOf_scan_build_cmd w mrd true false p)
      have ediv : ((x :: xs).length +
          (w.maxNumSsidsPerScan - acc.canAppend)) / w.maxNumSsidsPerScan =
          xs.length / w.maxNumSsidsPerScan + 1 := by
        have e : (x :: xs).length + (w.maxNumSsidsPerScan - acc.canAppend) =
            xs.length + w.maxNumSsidsPerScan := by
          simp only [List.length_cons]
          omega
        rw [e, Nat.add_div_right _ hm0]
      refine ⟨?_, ?_, ?_⟩
      · rw [hstep, hstep2, ihlen, ediv]
        simp only [List.length_append, List.length_cons, List.length_nil,
          Nat.sub_self, Nat.add_zero]
        omega
      · rw [hstep, hstep2, ihssids, ssidChunks, if_pos hk]
        simp only [List.map_append, List.map_cons, List.map_nil]
        rw [msgSsidsOf_append, hbase]
        simp [msgSsidsOf]
      · rw [hstep, hstep2, ihflush, ediv]
        simp only [List.map_append, List.map_cons, List.map_nil]
        rw [msgFlushFlag_append, msgFlushFlag_scan_build_cmd]
        have hfb : msgFlushFlag [Attr.scanSsids (acc.curSsids ++ [x])] = false :=
          rfl
        rw [hfb]
        simp [List.replicate_succ]
    · have hk2 : 2 ≤ acc.canAppend := by omega
      have hstep2 : scan_cmds_add_hidden w mrd p ⟨x, true⟩ acc =
          { acc with curSsids := acc.curSsids ++ [x], canAppend := acc.canAppend - 1 } := by
        unfold scan_cmds_add_hidden
        simp only [hdec]
        have : ¬(acc.canAppend - 1 = 0) := by omega
        simp [this]
      obtain ⟨ihlen, ihssids, ihflush⟩ :=
        ih { acc with curSsids := acc.curSsids ++ [x], canAppend := acc.canAppend - 1 }
          (by show 1 ≤ acc.canAppend - 1; omega)
          (by show acc.canAppend - 1 ≤ w.maxNumSsidsPerScan; omega) hbase
      have ediv : (xs.length +
          (w.maxNumSsidsPerScan - (acc.canAppend - 1))) / w.maxNumSsidsPerScan =
          ((x :: xs).length +
            (w.maxNumSsidsPerScan - acc.canAppend)) / w.maxNumSsidsPerScan := by
        have e : xs.length + (w.maxNumSsidsPerScan - (acc.canAppend - 1)) =
            (x :: xs).length + (w.maxNumSsidsPerScan - acc.canAppend) := by
          simp only [List.length_cons]
          omega
        rw [e]
      refine ⟨?_, ?_, ?_⟩
      · rw [hstep, hstep2, ihlen, ediv]
      · rw [hstep, hstep2, ihssids, ssidChunks, if_neg hk]
      · rw [hstep, hstep2, ihflush, ediv]

/-- For an active scan without an explicit SSID, `scan_cmds_add` is
the hidden-network fold over the hidden known networks followed by the
wildcard finalization. -/
lemma scan_cmds_add_active_hidden (w : Wiphy) (mrd : Bool)
    (p : ScanParameters) (nets : List NetworkInfo) (hssid : p.ssid = none) :
    scan_cmds_add w mrd false p nets =
      cmds_add_finalize (scan_cmds_add_hidden_run w mrd p
        ((nets.filter fun n => n.isHidden).map fun n => n.ssid)
        { cmds := [], curBase := scan_build_cmd w mrd false false p,
          curSsids := [], canAppend := w.maxNumSsidsPerScan }) := by
  unfold scan_cmds_add cmds_add_finalize
  rw [hssid]
  simp only [Bool.false_eq_true, if_false]
  rw [cmds_add_fold_filter]

/-! ## BSS information-element parsing
(scan_parse_bss_information_elements, src/scan.c:1204-1385;
scan_parse_advertisement_protocol, src/scan.c:1160-1202;
scan_parse_attr_bss, src/scan.c:1403-1515;
signal_unspec_to_mbm, src/scan.c:1395-1401)

The TLV iterator (`ie_tlv_iter_*`) lives in ie.c, which is not among
the repository sources; it is modelled from the specification (§4.2):
a byte slice yields a stream of (tag, length, payload) tuples and the
iterator refuses to yield a truncated trailing element.  Likewise
`ie_parse_bss_load` (BSS Load: extract the utilization byte out of the
5-byte body) is modelled from §4.2/§6, and the vendor-specific and
WSC/WFD/P2P dispatchers (ie.c, p2putil.c) are absent from src/: they
never reject the IE list and do not touch the SSID, so the model
records the vendor payloads it would have dispatched. -/

/-- IE tag constants (ie.h values are standard IEEE 802.11). -/
def IE_TYPE_SSID : ℕ := 0

def IE_TYPE_COUNTRY : ℕ := 7

def IE_TYPE_BSS_LOAD : ℕ := 11

def IE_TYPE_HT_CAPABILITIES : ℕ := 45

def IE_TYPE_RSN : ℕ := 48

def IE_TYPE_MOBILITY_DOMAIN : ℕ := 54

def IE_TYPE_RM_ENABLED_CAPABILITIES : ℕ := 70

def IE_TYPE_INTERWORKING_IE : ℕ := 107

def IE_TYPE_ADVERTISEMENT_PROTOCOL : ℕ := 108

def IE_TYPE_ROAMING_CONSORTIUM : ℕ := 111

def IE_TYPE_EXTENDED_CAPABILITIES : ℕ := 127

def IE_TYPE_VHT_CAPABILITIES : ℕ := 191

def IE_TYPE_VENDOR_SPECIFIC : ℕ := 221

def IE_TYPE_RSNX : ℕ := 244

def IE_ADVERTISEMENT_ANQP : ℕ := 0

/-- Modelled from the spec (§4.2): the TLV iterator of ie.c.  Each
step reads a tag byte and a length byte and borrows `length` payload
bytes; a truncated trailing element is refused (iteration ends).  The
fuel argument (instantiated with the input length, an upper bound on
the number of elements) makes the recursion structural. -/
def ie_tlv_parse_fuel : ℕ → List ℕ → List (ℕ × List ℕ)
  | 0, _ => []
  | fuel + 1, t :: l :: rest =>
    if l ≤ rest.length then
      (t, rest.take l) :: ie_tlv_parse_fuel fuel (rest.drop l)
    else []
  | _ + 1, _ => []

def ie_tlv_parse (data : List ℕ) : List (ℕ × List ℕ) :=
  ie_tlv_parse_fuel data.length data

/-- Source frame type of a BSS record. -/
inductive SourceFrame where
  | beacon : SourceFrame
  | probeResp : SourceFrame
  | probeReq : SourceFrame
  deriving Repr, DecidableEq

/-- Little-endian decoders for the fixed-size netlink attribute
payloads (the C reads them through host-order casts). -/
def leU16 (d : List ℕ) : ℕ := d.getD 0 0 + 256 * d.getD 1 0

def leU32 (d : List ℕ) : ℕ :=
  d.getD 0 0 + 256 * d.getD 1 0 + 65536 * d.getD 2 0 + 16777216 * d.getD 3 0

def leU64 (d : List ℕ) : ℕ :=
  leU32 (d.take 4) + 4294967296 * leU32 (d.drop 4)

/-- Two's-complement reading of a 32-bit value (NL80211_BSS_SIGNAL_MBM
is a signed s32). -/
def toSigned32 (n : ℕ) : ℤ :=
  if n < 2147483648 then (n : ℤ) else (n : ℤ) - 4294967296

/-- `signal_unspec_to_mbm`: maps a unitless 0..100 strength to mBm by
`s·100 − 10000`; out-of-range values (a warning in the source) give 0. -/
def signal_unspec_to_mbm (strength : ℕ) : ℤ :=
  if strength > 100 then 0 else (strength : ℤ) * 100 - 10000

/-- `struct scan_bss` as far as the embedded parser populates it.
`sawSsidIe` is a ghost observability field recording that an SSID
information element was processed (the C tracks this in the
`have_ssid` local of `scan_parse_bss_information_elements`); it does
not influence any control flow.  `vendor_ies` records the payloads the
C hands to the vendor-specific dispatchers of ie.c/p2putil.c (absent
from src/), which never reject the element list. -/
structure ScanBss where
  addr : List ℕ := []
  capability : ℕ := 0
  frequency : ℕ := 0
  signal_strength : ℤ := 0
  ssid : List ℕ := []
  ssid_len : ℕ := 0
  sawSsidIe : Bool := false
  utilization : ℕ := 127
  rsne : Option (List ℕ) := none
  rsnxe : Option (List ℕ) := none
  mde : Option (List ℕ) := none
  cap_rm_neighbor_report : Bool := false
  cc : Option (List ℕ) := none
  ht_capable : Bool := false
  vht_capable : Bool := false
  anqp_capable : Bool := false
  hessid : List ℕ := []
  rc_ie : Option (List ℕ) := none
  proxy_arp : Bool := false
  vendor_ies : List (List ℕ) := []
  source_frame : SourceFrame := SourceFrame.beacon
  parent_tsf : ℕ := 0
  time_stamp : ℕ := 0
  data_rate : ℕ := 0
  deriving Repr, DecidableEq

/-- `scan_parse_advertisement_protocol`: walk the advertisement
tuples looking for the ANQP protocol id; MIH/EAS/RLQP tuples advance
by 2, vendor-specific tuples advance by their length byte `ptr[3]`,
any other id aborts the walk.  `len` is a uint16 in the source, so the
subtractions wrap modulo 2^16; the fuel argument bounds the walk (a
wrapping walk that never terminates in C exhausts the fuel and reports
no ANQP id).  The caller ignores the returned success flag; only the
ANQP discovery matters. -/
def scan_parse_advertisement_protocol : ℕ → List ℕ → ℕ → Bool
  | 0, _, _ => false
  | _ + 1, _, 0 => false
  | fuel + 1, data, len =>
    let id := data.getD 1 0
    if id = IE_ADVERTISEMENT_ANQP then true
    else if id = 1 ∨ id = 2 ∨ id = 3 ∨ id = 4 then
      scan_parse_advertisement_protocol fuel (data.drop 2)
        ((len + 65536 - 2) % 65536)
    else if id = 221 then
      scan_parse_advertisement_protocol fuel (data.drop (data.getD 3 0))
        ((len + 65536 - data.getD 3 0 % 65536) % 65536)
    else false

/-- The per-element switch of `scan_parse_bss_information_elements`
for one `(tag, payload)` element: `none` is the `return false` of a
malformed element (oversized SSID, undersized advertisement-protocol
or roaming-consortium element); otherwise the updated record together
with whether this element was an (accepted) SSID element, which sets
the `have_ssid` local. -/
def scan_parse_bss_ie_step (bss : ScanBss) (tag : ℕ) (d : List ℕ) :
    Option (ScanBss × Bool) :=
  if tag = IE_TYPE_SSID then
    if d.length > 32 then none
    else some ({ bss with ssid := d, ssid_len := d.length, sawSsidIe := true },
      true)
  else if tag = IE_TYPE_RSN then
    some (if bss.rsne = none then
      { bss with rsne := some ([tag, d.length] ++ d) } else bss, false)
  else if tag = IE_TYPE_RSNX then
    some (if bss.rsnxe = none then
      { bss with rsnxe := some ([tag, d.length] ++ d) } else bss, false)
  else if tag = IE_TYPE_BSS_LOAD then
    /- ie_parse_bss_load (ie.c, not under src/), modelled from the
       spec: a 5-byte body carries the utilization byte at offset 2;
       any other length is a parse failure, which the caller only
       logs. -/
    some (if d.length = 5 then { bss with utilization := d.getD 2 0 } else bss,
      false)
  else if tag = IE_TYPE_VENDOR_SPECIFIC then
    some ({ bss with vendor_ies := bss.vendor_ies ++ [d] }, false)
  else if tag = IE_TYPE_MOBILITY_DOMAIN then
    some (if bss.mde = none ∧ d.length = 3 then { bss with mde := some d }
      else bss, false)
  else if tag = IE_TYPE_RM_ENABLED_CAPABILITIES then
    some (if d.length = 5 then
      { bss with cap_rm_neighbor_report := Nat.testBit (d.getD 0 0) 1 }
    else bss, false)
  else if tag = IE_TYPE_COUNTRY then
    some (if bss.cc = none ∧ 6 ≤ d.length then { bss with cc := some (d.take 3) }
      else bss, false)
  else if tag = IE_TYPE_HT_CAPABILITIES then
    some ({ bss with ht_capable := true }, false)
  else if tag = IE_TYPE_VHT_CAPABILITIES then
    some ({ bss with vht_capable := true }, false)
  else if tag = IE_TYPE_ADVERTISEMENT_PROTOCOL then
    if d.length < 2 then none
    else
      some (if scan_parse_advertisement_protocol 131072 d d.length then
        { bss with anqp_capable := true } else bss, false)
  else if tag = IE_TYPE_INTERWORKING_IE then
    some (if d.length = 9 then { bss with hessid := (d.drop 3).take 6 }
      else if d.length = 7 then { bss with hessid := (d.drop 1).take 6 }
      else bss, false)
  else if tag = IE_TYPE_ROAMING_CONSORTIUM then
    if d.length < 2 then none
    else some ({ bss with rc_ie := some ([tag, d.length] ++ d) }, false)
  else if tag = IE_TYPE_EXTENDED_CAPABILITIES then
    some (if d.length < 2 then bss
      else { bss with proxy_arp := Nat.testBit (d.getD 1 0) 4 }, false)
  else some (bss, false)

/-- The element walk of `scan_parse_bss_information_elements`: fold
the per-element switch over the TLV stream, accumulating the
`have_ssid` local (set while processing an SSID element, never
cleared). -/
def scan_parse_bss_ies_loop (bss : ScanBss) (haveSsid : Bool) :
    List (ℕ × List ℕ) → Option (ScanBss × Bool)
  | [] => some (bss, haveSsid)
  | (tag, d) :: rest =>
    match scan_parse_bss_ie_step bss tag d with
    | none => none
    | some (bss2, sawSsid) =>
      scan_parse_bss_ies_loop bss2 (haveSsid || sawSsid) rest

/-- `scan_parse_bss_information_elements`: iterate the element list
updating the record; the returned flag is the `have_ssid` local (the
caller rejects the record when it is false), `none` is a malformed
element list.  The trailing WSC/WFD/P2P extraction of the source calls
into ie.c/p2putil.c (absent from src/); it can never reject the list
nor touch the SSID and is represented by the collected `vendor_ies`. -/
def scan_parse_bss_information_elements (bss : ScanBss) (data : List ℕ) :
    Option (ScanBss × Bool) :=
  scan_parse_bss_ies_loop bss false (ie_tlv_parse data)

/-- One attribute of an NL80211_ATTR_BSS blob, with its raw payload
bytes (`other` covers attribute types the switch does not handle). -/
inductive BssAttr where
  | bssid (d : List ℕ) : BssAttr
  | capability (d : List ℕ) : BssAttr
  | frequency (d : List ℕ) : BssAttr
  | signalMbm (d : List ℕ) : BssAttr
  | signalUnspec (d : List ℕ) : BssAttr
  | informationElements (d : List ℕ) : BssAttr
  | parentTsf (d : List ℕ) : BssAttr
  | prespData : BssAttr
  | beaconIes (d : List ℕ) : BssAttr
  | seenMsAgo (d : List ℕ) : BssAttr
  | lastSeenBoottime (d : List ℕ) : BssAttr
  | other (t : ℕ) (d : List ℕ) : BssAttr
  deriving Repr, DecidableEq

/-- The attribute loop of `scan_parse_attr_bss`: fold the blob
attributes into the record, remembering the information-element and
beacon-IE payloads and the seen-ms-ago value; `none` is the
`goto fail` of a malformed fixed-size attribute.  (The seen-ms-ago and
last-seen-boottime length checks only warn, they do not fail.) -/
def scan_parse_attr_bss_loop (bss : ScanBss) (ies beaconIes : Option (List ℕ))
    (seenMsAgo : ℕ) :
    List BssAttr → Option (ScanBss × Option (List ℕ) × Option (List ℕ) × ℕ)
  | [] => some (bss, ies, beaconIes, seenMsAgo)
  | a :: rest =>
    match a with
    | BssAttr.bssid d =>
      if d.length ≠ 6 then none
      else scan_parse_attr_bss_loop { bss with addr := d } ies beaconIes
        seenMsAgo rest
    | BssAttr.capability d =>
      if d.length ≠ 2 then none
      else scan_parse_attr_bss_loop { bss with capability := leU16 d } ies
        beaconIes seenMsAgo rest
    | BssAttr.frequency d =>
      if d.length ≠ 4 then none
      else scan_parse_attr_bss_loop { bss with frequency := leU32 d } ies
        beaconIes seenMsAgo rest
    | BssAttr.signalMbm d =>
      if d.length ≠ 4 then none
      else scan_parse_attr_bss_loop
        { bss with signal_strength := toSigned32 (leU32 d) } ies beaconIes
        seenMsAgo rest
    | BssAttr.signalUnspec d =>
      if d.length ≠ 1 then none
      else scan_parse_attr_bss_loop
        { bss with signal_strength := signal_unspec_to_mbm (d.getD 0 0) } ies
        beaconIes seenMsAgo rest
    | BssAttr.informationElements d =>
      scan_parse_attr_bss_loop bss (some d) beaconIes seenMsAgo rest
    | BssAttr.parentTsf d =>
      if d.length ≠ 8 then none
      else scan_parse_attr_bss_loop { bss with parent_tsf := leU64 d } ies
        beaconIes seenMsAgo rest
    | BssAttr.prespData =>
      scan_parse_attr_bss_loop
        { bss with source_frame := SourceFrame.probeResp } ies beaconIes
        seenMsAgo rest
    | BssAttr.beaconIes d =>
      scan_parse_attr_bss_loop bss ies (some d) seenMsAgo rest
    | BssAttr.seenMsAgo d =>
      scan_parse_attr_bss_loop bss ies beaconIes
        (if d.length = 4 then leU32 d else seenMsAgo) rest
    | BssAttr.lastSeenBoottime d =>
      scan_parse_attr_bss_loop
        (if d.length = 8 then { bss with time_stamp := leU64 d / 1000 }
          else bss) ies beaconIes seenMsAgo rest
    | BssAttr.other _ _ =>
      scan_parse_attr_bss_loop bss ies beaconIes seenMsAgo rest

/-- The probe-response hint of `scan_parse_attr_bss`: IEs present and
either no beacon IEs or different contents
(`ies && (!beacon_ies || ies_len != beacon_ies_len || memcmp)`). -/
def iesProbeRespHint (ies beaconIes : Option (List ℕ)) : Bool :=
  match ies, beaconIes with
  | some _, none => true
  | some l, some b => b ≠ l
  | none, _ => false

/-- The tail of `scan_parse_attr_bss` before IE parsing: apply the
probe-response heuristic to the source frame (IEs present and either
no beacon IEs or different contents) and set the data rate to the low
2,000,000 default in case estimation fails. -/
def scan_attr_bss_frame_fixup (bss1 : ScanBss) (ies beaconIes : Option (List ℕ)) :
    ScanBss :=
  if bss1.source_frame = SourceFrame.beacon ∧ iesProbeRespHint ies beaconIes then
    { bss1 with source_frame := SourceFrame.probeResp, data_rate := 2000000 }
  else { bss1 with data_rate := 2000000 }

/-- `scan_parse_attr_bss`: build a BSS record from an attribute blob.
`est` models the `wiphy_estimate_data_rate` collaborator (wiphy.c of
the modern tree, not among the repository sources; modelled from §6.3):
`some r` is a successful estimate of `r` bits/s, `none` a failure that
leaves the 2,000,000 default.  Returns the record and the seen-ms-ago
value, or `none` on the `goto fail` paths — in particular when the IE
walk is malformed or no SSID element was seen. -/
def scan_parse_attr_bss (est : Option ℕ) (attrs : List BssAttr) :
    Option (ScanBss × ℕ) :=
  match scan_parse_attr_bss_loop {} none none 0 attrs with
  | none => none
  | some (bss1, ies, beaconIes, seen) =>
    match ies with
    | none => some (scan_attr_bss_frame_fixup bss1 none beaconIes, seen)
    | some l =>
      match scan_parse_bss_information_elements
          (scan_attr_bss_frame_fixup bss1 (some l) beaconIes) l with
      | none => none
      | some (bss4, haveSsid) =>
        if haveSsid then
          some ({ bss4 with
            data_rate := match est with | some r => r | none => bss4.data_rate },
            seen)
        else none

/-- The frame fixup never touches the SSID fields. -/
lemma scan_attr_bss_frame_fixup_ssid (bss1 : ScanBss)
    (ies beaconIes : Option (List ℕ)) :
    (scan_attr_bss_frame_fixup bss1 ies beaconIes).ssid_len = bss1.ssid_len ∧
      (scan_attr_bss_frame_fixup bss1 ies beaconIes).sawSsidIe =
        bss1.sawSsidIe := by
  unfold scan_attr_bss_frame_fixup
  split_ifs <;> exact ⟨rfl, rfl⟩

/-- The per-element switch: an element reported as the SSID element
leaves a record with `ssid_len ≤ 32` and the ghost flag set; any other
accepted element leaves the SSID fields untouched. -/
lemma scan_parse_bss_ie_step_fields (bss : ScanBss) (tag : ℕ) (d : List ℕ)
    (b2 : ScanBss) (s : Bool)
    (h : scan_parse_bss_ie_step bss tag d = some (b2, s)) :
    (s = true → b2.ssid_len ≤ 32 ∧ b2.sawSsidIe = true) ∧
      (s = false → b2.ssid_len = bss.ssid_len ∧ b2.sawSsidIe = bss.sawSsidIe) := by
  rw [scan_parse_bss_ie_step] at h
  by_cases hc0 : tag = IE_TYPE_SSID
  · rw [if_pos hc0] at h
    by_cases hg0 : d.length > 32
    · rw [if_pos hg0] at h
      exact Option.noConfusion h
    · rw [if_neg hg0] at h
      simp only [Option.some.injEq, Prod.mk.injEq] at h
      obtain ⟨hb, hsEq⟩ := h
      subst hb
      subst hsEq
      refine ⟨fun hss => ⟨by show d.length ≤ 32; omega, rfl⟩,
        fun hss => by simp at hss⟩
  · rw [if_neg hc0] at h
    by_cases hc1 : tag = IE_TYPE_RSN
    · rw [if_pos hc1] at h
      simp only [Option.some.injEq, Prod.mk.injEq] at h
      obtain ⟨hb, hsEq⟩ := h
      subst hb
      subst hsEq
      refine ⟨fun hss => by simp at hss, fun hss => ?_⟩
      constructor <;> (try split_ifs) <;> rfl
    · rw [if_neg hc1] at h
      by_cases hc2 : tag = IE_TYPE_RSNX
      · rw [if_pos hc2] at h
        simp only [Option.some.injEq, Prod.mk.injEq] at h
        obtain ⟨hb, hsEq⟩ := h
        subst hb
        subst hsEq
        refine ⟨fun hss => by simp at hss, fun hss => ?_⟩
        constructor <;> (try split_ifs) <;> rfl
      · rw [if_neg hc2] at h
        by_cases hc3 : tag = IE_TYPE_BSS_LOAD
        · rw [if_pos hc3] at h
          simp only [Option.some.injEq, Prod.mk.injEq] at h
          obtain ⟨hb, hsEq⟩ := h
          subst hb
          subst hsEq
          refine ⟨fun hss => by simp at hss, fun hss => ?_⟩
          constructor <;> (try split_ifs) <;> rfl
        · rw [if_neg hc3] at h
          by_cases hc4 : tag = IE_TYPE_VENDOR_SPECIFIC
          · rw [if_pos hc4] at h
            simp only [Option.some.injEq, Prod.mk.injEq] at h
            obtain ⟨hb, hsEq⟩ := h
            subst hb
            subst hsEq
            refine ⟨fun hss => by simp at hss, fun hss => ?_⟩
            constructor <;> (try split_ifs) <;> rfl
          · rw [if_neg hc4] at h
            by_cases hc5 : tag = IE_TYPE_MOBILITY_DOMAIN
            · rw [if_pos hc5] at h
              simp only [Option.some.injEq, Prod.mk.injEq] at h
              obtain ⟨hb, hsEq⟩ := h
              subst hb
              subst hsEq
              refine ⟨fun hss => by simp at hss, fun hss => ?_⟩
              constructor <;> (try split_ifs) <;> rfl
            · rw [if_neg hc5] at h
              by_cases hc6 : tag = IE_TYPE_RM_ENABLED_CAPABILITIES
              · rw [if_pos hc6] at h
                simp only [Option.some.injEq, Prod.mk.injEq] at h
                obtain ⟨hb, hsEq⟩ := h
                subst hb
                subst hsEq
                refine ⟨fun hss => by simp at hss, fun hss => ?_⟩
                constructor <;> (try split_ifs) <;> rfl
              · rw [if_neg hc6] at h
                by_cases hc7 : tag = IE_TYPE_COUNTRY
                · rw [if_pos hc7] at h
                  simp only [Option.some.injEq, Prod.mk.injEq] at h
                  obtain ⟨hb, hsEq⟩ := h
                  subst hb
                  subst hsEq
                  refine ⟨fun hss => by simp at hss, fun hss => ?_⟩
                  constructor <;> (try split_ifs) <;> rfl
                · rw [if_neg hc7] at h
                  by_cases hc8 : tag = IE_TYPE_HT_CAPABILITIES
                  · rw [if_pos hc8] at h
                    simp only [Option.some.injEq, Prod.mk.injEq] at h
                    obtain ⟨hb, hsEq⟩ := h
                    subst hb
                    subst hsEq
                    refine ⟨fun hss => by simp at hss, fun hss => ?_⟩
                    constructor <;> (try split_ifs) <;> rfl
                  · rw [if_neg hc8] at h
                    by_cases hc9 : tag = IE_TYPE_VHT_CAPABILITIES
                    · rw [if_pos hc9] at h
                      simp only [Option.some.injEq, Prod.mk.injEq] at h
                      obtain ⟨hb, hsEq⟩ := h
                      subst hb
                      subst hsEq
                      refine ⟨fun hss => by simp at hss, fun hss => ?_⟩
                      constructor <;> (try split_ifs) <;> rfl
                    · rw [if_neg hc9] at h
                      by_cases hc10 : tag = IE_TYPE_ADVERTISEMENT_PROTOCOL
                      · rw [if_pos hc10] at h
                        by_cases hg10 : d.length < 2
                        · rw [if_pos hg10] at h
                          exact Option.noConfusion h
                        · rw [if_neg hg10] at h
                          simp only [Option.some.injEq, Prod.mk.injEq] at h
                          obtain ⟨hb, hsEq⟩ := h
                          subst hb
                          subst hsEq
                          refine ⟨fun hss => by simp at hss, fun hss => ?_⟩
                          constructor <;> (try split_ifs) <;> rfl
                      · rw [if_neg hc10] at h
                        by_cases hc11 : tag = IE_TYPE_INTERWORKING_IE
                        · rw [if_pos hc11] at h
                          simp only [Option.some.injEq, Prod.mk.injEq] at h
                          obtain ⟨hb, hsEq⟩ := h
                          subst hb
                          subst hsEq
                          refine ⟨fun hss => by simp at hss, fun hss => ?_⟩
                          constructor <;> (try split_ifs) <;> rfl
                        · rw [if_neg hc11] at h
                          by_cases hc12 : tag = IE_TYPE_ROAMING_CONSORTIUM
                          · rw [if_pos hc12] at h
                            by_cases hg12 : d.length < 2
                            · rw [if_pos hg12] at h
                              exact Option.noConfusion h
                            · rw [if_neg hg12] at h
                              simp only [Option.some.injEq, Prod.mk.injEq] at h
                              obtain ⟨hb, hsEq⟩ := h
                              subst hb
                              subst hsEq
                              refine ⟨fun hss => by simp at hss, fun hss => ?_⟩
                              constructor <;> (try split_ifs) <;> rfl
                          · rw [if_neg hc12] at h
                            by_cases hc13 : tag = IE_TYPE_EXTENDED_CAPABILITIES
                            · rw [if_pos hc13] at h
                              simp only [Option.some.injEq, Prod.mk.injEq] at h
                              obtain ⟨hb, hsEq⟩ := h
                              subst hb
                              subst hsEq
                              refine ⟨fun hss => by simp at hss, fun hss => ?_⟩
                              constructor <;> (try split_ifs) <;> rfl
                            · rw [if_neg hc13] at h
                              simp only [Option.some.injEq, Prod.mk.injEq] at h
                              obtain ⟨hb, hsEq⟩ := h
                              subst hb
                              subst hsEq
                              exact ⟨fun hss => by simp at hss, fun hss => ⟨rfl, rfl⟩⟩
/-- The per-element switch rejects an SSID element longer than 32
bytes. -/
lemma scan_parse_bss_ie_step_reject (bss : ScanBss) (d : List ℕ)
    (hlen : 32 < d.length) :
    scan_parse_bss_ie_step bss IE_TYPE_SSID d = none := by
  unfold scan_parse_bss_ie_step
  rw [if_pos rfl, if_pos hlen]

/-- Accepted element lists only ever produce records whose SSID fits
in 32 bytes and whose SSID element was actually observed: the
invariant `have_ssid → (ssid_len ≤ 32 ∧ sawSsidIe)` is preserved by
every arm of the element switch. -/
lemma scan_parse_bss_ies_loop_accept (L : List (ℕ × List ℕ)) :
    ∀ (bss : ScanBss) (hs : Bool) (b : ScanBss),
      (hs = true → bss.ssid_len ≤ 32 ∧ bss.sawSsidIe = true) →
      scan_parse_bss_ies_loop bss hs L = some (b, true) →
      b.ssid_len ≤ 32 ∧ b.sawSsidIe = true := by
  induction L with
  | nil =>
    intro bss hs b hinv h
    simp only [scan_parse_bss_ies_loop, Option.some.injEq, Prod.mk.injEq] at h
    obtain ⟨h1, h2⟩ := h
    subst h1
    exact hinv h2
  | cons td rest ih =>
    obtain ⟨tag, d⟩ := td
    intro bss hs b hinv h
    rw [scan_parse_bss_ies_loop] at h
    rcases hstep : scan_parse_bss_ie_step bss tag d with _ | ⟨bss2, s⟩
    · rw [hstep] at h
      exact Option.noConfusion h
    · rw [hstep] at h
      simp only at h
      obtain ⟨hset, hkeep⟩ := scan_parse_bss_ie_step_fields bss tag d bss2 s hstep
      refine ih bss2 (hs || s) b ?_ h
      intro hor
      cases s with
      | true => exact hset rfl
      | false =>
        obtain ⟨e1, e2⟩ := hkeep rfl
        have hhs : hs = true := by simpa using hor
        obtain ⟨p1, p2⟩ := hinv hhs
        rw [e1, e2]
        exact ⟨p1, p2⟩

/-- The element walk rejects any TLV stream containing an SSID element
longer than 32 bytes: the whole element list is treated as
malformed. -/
lemma scan_parse_bss_ies_loop_reject (L : List (ℕ × List ℕ)) :
    ∀ (bss : ScanBss) (hs : Bool) (d : List ℕ),
      (IE_TYPE_SSID, d) ∈ L → 32 < d.length →
      scan_parse_bss_ies_loop bss hs L = none := by
  induction L with
  | nil => intro bss hs d hmem; exact absurd hmem (by simp)
  | cons td rest ih =>
    obtain ⟨tag, e⟩ := td
    intro bss hs d hmem hlen
    rcases List.mem_cons.mp hmem with hhead | htail
    · obtain ⟨htag, hd⟩ := Prod.mk.injEq .. ▸ hhead
      subst htag
      subst hd
      rw [scan_parse_bss_ies_loop, scan_parse_bss_ie_step_reject bss d hlen]
    · rw [scan_parse_bss_ies_loop]
      rcases hstep : scan_parse_bss_ie_step bss tag e with _ | ⟨bss2, s⟩ <;>
        simp only
      exact ih bss2 (hs || s) d htail hlen

/-- The attribute loop of `scan_parse_attr_bss` never touches the SSID
fields of the record. -/
lemma scan_parse_attr_bss_loop_ssid_fields (L : List BssAttr) :
    ∀ (bss : ScanBss) (ies bies : Option (List ℕ)) (seen : ℕ)
      (out : ScanBss × Option (List ℕ) × Option (List ℕ) × ℕ),
      scan_parse_attr_bss_loop bss ies bies seen L = some out →
      out.1.ssid_len = bss.ssid_len ∧ out.1.sawSsidIe = bss.sawSsidIe := by
  induction L with
  | nil =>
    intro bss ies bies seen out h
    simp only [scan_parse_attr_bss_loop, Option.some.injEq] at h
    rw [← h]
    exact ⟨rfl, rfl⟩
  | cons a rest ih =>
    intro bss ies bies seen out h
    cases a <;> rw [scan_parse_attr_bss_loop] at h <;>
      (try split_ifs at h) <;>
      first
      | exact Option.noConfusion h
      | (obtain ⟨h1, h2⟩ := ih _ _ _ _ _ h
         refine ⟨h1.trans ?_, h2.trans ?_⟩ <;> (try split_ifs) <;> rfl)

/-- Once an information-elements attribute has been seen (or `ies` is
already set), the attribute loop ends with a present IE payload. -/
lemma scan_parse_attr_bss_loop_ies_some (L : List BssAttr) :
    ∀ (bss : ScanBss) (ies bies : Option (List ℕ)) (seen : ℕ)
      (out : ScanBss × Option (List ℕ) × Option (List ℕ) × ℕ),
      scan_parse_attr_bss_loop bss ies bies seen L = some out →
      ((∃ d, BssAttr.informationElements d ∈ L) ∨ ies.isSome = true) →
      out.2.1.isSome = true := by
  induction L with
  | nil =>
    intro bss ies bies seen out h hie
    simp only [scan_parse_attr_bss_loop, Option.some.injEq] at h
    rcases hie with ⟨d, hd⟩ | hsome
    · exact absurd hd (by simp)
    · rw [← h]; exact hsome
  | cons a rest ih =>
    intro bss ies bies seen out h hie
    have htail : (∃ d, BssAttr.informationElements d ∈ a :: rest) →
        ¬(∃ d, a = BssAttr.informationElements d) →
        (∃ d, BssAttr.informationElements d ∈ rest) := by
      rintro ⟨d, hd⟩ hnot
      rcases List.mem_cons.mp hd with hh | hh
      · exact absurd ⟨d, hh.symm⟩ hnot
      · exact ⟨d, hh⟩
    cases a <;> rw [scan_parse_attr_bss_loop] at h <;>
      (try split_ifs at h) <;>
      first
      | exact Option.noConfusion h
      | exact ih _ _ _ _ _ h (Or.inr (by simp))
      | (refine ih _ _ _ _ _ h ?_
         rcases hie with hex | hsome
         · exact Or.inl (htail hex (by rintro ⟨d, hd⟩; cases hd))
         · exact Or.inr hsome)

/-! ## Module-level request admission and cancellation
(scan_common, src/scan.c:610-633; scan_owe_hidden, src/scan.c:728-804;
scan_add_owe_freq / add_owe_scan_cmd, src/scan.c:678-726;
scan_cancel, src/scan.c:818-883)

The module keeps a list of per-radio scan contexts
(`scan_contexts`); every public entry point starts with an
`l_queue_find` by wdev id.  The radio work queue (`wiphy_radio_work_*`
of the modern wiphy.c, not among the repository sources) is modelled
from the specification (§6.2): `insert` hands back a fresh nonzero id
(`nextWorkId`), `is_running(id)` compares against the currently
granted item, and `done(id)` evicts the item invoking its destroy op
(`scan_request_free`); the continuation that grants the next item is
part of the per-request lifecycle machine below. -/

/-- `enum scan_state`. -/
inductive ScanState where
  | notRunning : ScanState
  | passive : ScanState
  | active : ScanState
  deriving Repr, DecidableEq

/-- `struct scan_request` as the module-level model sees it: the
callback pointers are tracked as presence booleans (the events name
the request's work id). -/
structure ModuleScanRequest where
  workId : ℕ
  passive : Bool
  periodic : Bool
  triggered : Bool
  started : Bool
  canceled : Bool
  inCallback : Bool
  hasTrigger : Bool
  hasCallback : Bool
  hasDestroy : Bool
  cmds : List (List Attr)
  deriving Repr, DecidableEq

/-- `struct scan_context` plus the spec-modelled work-queue state for
its radio (§6.2): the fresh-id counter and the currently granted work
item (0 when none). -/
structure ScanContextM where
  wdev_id : ℕ
  wiphy : Wiphy
  state : ScanState
  requests : List ModuleScanRequest
  start_cmd_id : ℕ
  get_scan_cmd_id : ℕ
  nextWorkId : ℕ
  runningWorkId : ℕ
  deriving Repr, DecidableEq

/-- The module state: the `scan_contexts` queue. -/
structure ScanModule where
  contexts : List ScanContextM
  deriving Repr, DecidableEq

/-- Replace the context for `wdev` by an updated one. -/
def scan_context_update (st : ScanModule) (wdev : ℕ) (sc2 : ScanContextM) :
    ScanModule :=
  { contexts := st.contexts.map fun sc => if sc.wdev_id = wdev then sc2 else sc }

/-- `scan_common`: look up the context (`0` when the wdev has none),
build the request with its command batch, append it to the context's
request queue and insert it into the radio work queue, returning the
work id.  No user callback can fire inside this function. -/
def scan_common (st : ScanModule) (macRandDisabled : Bool) (wdev : ℕ)
    (passive : Bool) (p : ScanParameters) (networks : List NetworkInfo)
    (hasTrigger hasNotify hasDestroy : Bool) : ℕ × ScanModule :=
  match st.contexts.find? (fun sc => sc.wdev_id = wdev) with
  | none => (0, st)
  | some sc =>
    let sr : ModuleScanRequest :=
      { workId := sc.nextWorkId, passive := passive, periodic := false,
        triggered := false, started := false, canceled := false,
        inCallback := false, hasTrigger := hasTrigger,
        hasCallback := hasNotify, hasDestroy := hasDestroy,
        cmds := scan_cmds_add sc.wiphy macRandDisabled passive p networks }
    (sc.nextWorkId,
      scan_context_update st wdev
        { sc with
          requests := sc.requests ++ [sr]
          nextWorkId := sc.nextWorkId + 1 })

/-- One entry of the BSS list handed to `scan_owe_hidden`: the BSS
frequency, the OWE-transition SSID and, when the OWE element carried
an operating class/channel, the frequency they map to
(`oci_to_frequency` of band.c is not among the repository sources;
modelled from the spec as a precomputed optional frequency). -/
structure OweBssEntry where
  frequency : ℕ
  oweSsid : List ℕ
  oweOperFreq : Option ℕ
  deriving Repr, DecidableEq

/-- `scan_freq_set_add` on the ordered frequency set (§4.1): ascending
order, no duplicates. -/
def scan_freq_set_add : List ℕ → ℕ → List ℕ
  | [], f => [f]
  | x :: xs, f =>
    if f = x then x :: xs
    else if f < x then f :: x :: xs
    else x :: scan_freq_set_add xs f

/-- `scan_add_owe_freq`: the operating-class frequency when present,
the BSS frequency otherwise. -/
def scan_add_owe_freq (freqs : List ℕ) (bss : OweBssEntry) : List ℕ :=
  scan_freq_set_add freqs (bss.oweOperFreq.getD bss.frequency)

/-- `add_owe_scan_cmd`: a flush-requesting direct-probe trigger for
the OWE SSID on the given frequencies (or the single BSS frequency). -/
def add_owe_scan_cmd (w : Wiphy) (macRandDisabled : Bool)
    (ignore_flush : Bool) (freqs : Option (List ℕ)) (bss : OweBssEntry) :
    List Attr :=
  let fs := match freqs with
    | none => scan_add_owe_freq [] bss
    | some fs => fs
  scan_build_cmd w macRandDisabled ignore_flush false
      { freqs := some fs, ssid := some bss.oweSsid, flush := true } ++
    [Attr.scanSsids [bss.oweSsid]]

/-- The command batch of `scan_owe_hidden`: one command when all
targets share the OWE SSID (frequencies combined), otherwise one
command per target with FLUSH honoured only on the first.  (The source
assumes a nonempty BSS list.) -/
def scan_owe_hidden_cmds (w : Wiphy) (macRandDisabled : Bool)
    (list : List OweBssEntry) : List (List Attr) :=
  match list with
  | [] => []
  | first :: rest =>
    let freqs := (first :: rest).foldl scan_add_owe_freq []
    let same_ssid := rest.all fun b => b.oweSsid = first.oweSsid
    if same_ssid then
      [add_owe_scan_cmd w macRandDisabled false (some freqs) first]
    else
      add_owe_scan_cmd w macRandDisabled false none first ::
        rest.map (add_owe_scan_cmd w macRandDisabled true none)

/-- `scan_owe_hidden`: look up the context (`0` when the wdev has
none), build the OWE command batch, append the request and insert it
into the work queue. -/
def scan_owe_hidden (st : ScanModule) (macRandDisabled : Bool) (wdev : ℕ)
    (list : List OweBssEntry) (hasTrigger hasNotify hasDestroy : Bool) :
    ℕ × ScanModule :=
  match st.contexts.find? (fun sc => sc.wdev_id = wdev) with
  | none => (0, st)
  | some sc =>
    let sr : ModuleScanRequest :=
      { workId := sc.nextWorkId, passive := false, periodic := false,
        triggered := false, started := false, canceled := false,
        inCallback := false, hasTrigger := hasTrigger,
        hasCallback := hasNotify, hasDestroy := hasDestroy,
        cmds := scan_owe_hidden_cmds sc.wiphy macRandDisabled list }
    (sc.nextWorkId,
      scan_context_update st wdev
        { sc with
          requests := sc.requests ++ [sr]
          nextWorkId := sc.nextWorkId + 1 })

/-- `scan_cancel`: `false` without side effects when the wdev has no
context or the id no request.  Otherwise: a request inside its own
callback or an already-triggered request has `destroy` invoked now and
nulled (the triggered one also loses its notify callback and stays
queued); any other request is removed — cancelling the in-flight
trigger or result-dump commands first when it is the running work item
— and evicted from the work queue, which frees it via
`scan_request_free` (invoking `destroy` if still present).  The third
component lists the work ids whose `destroy` callback fired. -/
def scan_cancel (st : ScanModule) (wdev id : ℕ) :
    Bool × ScanModule × List ℕ :=
  match st.contexts.find? (fun sc => sc.wdev_id = wdev) with
  | none => (false, st, [])
  | some sc =>
    match sc.requests.find? (fun sr => sr.workId = id) with
    | none => (false, st, [])
    | some sr =>
      if sr.inCallback then
        (true,
          scan_context_update st wdev
            { sc with requests := sc.requests.map fun r =>
                if r.workId = id then { r with hasDestroy := false } else r },
          if sr.hasDestroy then [id] else [])
      else if sr.triggered then
        (true,
          scan_context_update st wdev
            { sc with requests := sc.requests.map fun r =>
                if r.workId = id then
                  { r with hasCallback := false, hasDestroy := false }
                else r },
          if sr.hasDestroy then [id] else [])
      else
        let sc2 :=
          if sc.runningWorkId = id then
            /- l_genl_family_cancel of the in-flight trigger / dump; the
               dump's destroy callback sees results->sr->canceled and
               invokes no user callback. -/
            { sc with
              requests := sc.requests.map fun r =>
                if r.workId = id then { r with canceled := true } else r
              start_cmd_id := 0
              get_scan_cmd_id := 0 }
          else sc
        (true,
          scan_context_update st wdev
            { sc2 with
              requests := sc2.requests.filter fun r => ¬r.workId = id
              runningWorkId :=
                if sc2.runningWorkId = id then 0 else sc2.runningWorkId },
          if sr.hasDestroy then [id] else [])

/-! ## Per-request lifecycle machine
(scan_request_free, src/scan.c:152-163; scan_request_failed,
src/scan.c:165-178; scan_request_triggered, src/scan.c:226-267;
start_next_scan_request, src/scan.c:1081-1096; scan_finished,
src/scan.c:1753-1787; get_scan_done, src/scan.c:1789-1809;
scan_notify, src/scan.c:1852-2027; scan_cancel, src/scan.c:818-883;
scan_context_free, src/scan.c:205-224)

The event-driven life of one scan request admitted to a context is
modelled as an explicit step function over a state record, emitting
the user callbacks (`trigger` / `notify` / `destroy`) as events.  The
model is the projection of the context onto a single request: the
request under study is the head (and only member) of the context's
request queue, so each `scan_notify` / ack handler touches exactly it;
when other requests exist they only influence *when* the environment
fires these labels, which the step relation leaves fully
nondeterministic.  The radio work queue is again the spec-modelled
collaborator (§6.2): `grant` is the queue granting execution
(`do_work` = `start_next_scan_request`), `running` its is-running
observation, and eviction (`wiphy_radio_work_done` or queue
destruction) invokes `scan_request_free`.  A `getScan = true` state
means the GET_SCAN dump for *this* request is in flight.

Labels carry the environment's choices: `sendOk` — whether
`l_genl_family_send` succeeds for a trigger being issued on that step;
`reenter` — whether the user, from inside the callback run by that
step, re-entrantly calls `scan_cancel` on this request (the
`in_callback` branch of `scan_cancel`, which invokes `destroy`
immediately and nulls it). -/

/-- A user-callback invocation, with the error argument where the C
passes one (`0` success, `-EIO = -5`, `-EAGAIN = -11`,
`-EBUSY = -16`, `-ECANCELED = -125`). -/
inductive CbEvent where
  | trigger (err : ℤ) : CbEvent
  | notify (err : ℤ) : CbEvent
  | destroy : CbEvent
  deriving Repr, DecidableEq

/-- The state of one admitted request together with the pieces of its
context and work-queue state that the handlers consult. -/
structure ReqState where
  inQueue : Bool
  freed : Bool
  running : Bool
  startCmd : Bool
  getScan : Bool
  scState : ScanState
  hasTrigger : Bool
  hasCallback : Bool
  hasDestroy : Bool
  canceled : Bool
  started : Bool
  triggered : Bool
  periodic : Bool
  passive : Bool
  cmds : ℕ
  deriving Repr, DecidableEq

/-- The environment events that drive a request. -/
inductive Label where
  | grant (sendOk reenter : Bool) : Label
  | ackOk : Label
  | ackBusy : Label
  | ackErr (err : ℤ) (reenter : Bool) : Label
  | resultsOwn (sendOk reenter : Bool) : Label
  | resultsExt (flush sendOk reenter : Bool) : Label
  | dumpDone (reenter : Bool) : Label
  | aborted (sendOk reenter : Bool) : Label
  | cancel : Label
  | teardown : Label
  deriving Repr, DecidableEq

/-- `scan_request_free` via work-queue eviction: fire `destroy` if
still present, drop the request from the queue. -/
def freeRequest (s : ReqState) : ReqState × List CbEvent :=
  ({ s with
      inQueue := false
      freed := true
      running := false
      hasTrigger := false
      hasCallback := false
      hasDestroy := false },
    if s.hasDestroy then [CbEvent.destroy] else [])

/-- `scan_request_failed`: deliver the error through `trigger` (or
`notify` when no trigger callback is left), remove the request and
evict it from the work queue.  `reenter` models a `scan_cancel` issued
from inside that callback: the `in_callback` branch fires `destroy`
immediately and nulls it, so the subsequent `scan_request_free` does
not fire it again. -/
def scan_request_failed_step (s : ReqState) (err : ℤ) (reenter : Bool) :
    ReqState × List CbEvent :=
  let cbEvs : List CbEvent :=
    if s.hasTrigger then [CbEvent.trigger err]
    else if s.hasCallback then [CbEvent.notify err] else []
  let reenterFires : Bool := reenter && !cbEvs.isEmpty && s.hasDestroy
  let s2 := if reenterFires then { s with hasDestroy := false } else s
  ((freeRequest s2).1,
    cbEvs ++ (if reenterFires then [CbEvent.destroy] else []) ++
      (freeRequest s2).2)

/-- `scan_finished` for this request: deliver `notify`, remove the
request and evict it from the work queue; `reenter` as above. -/
def scan_finished_step (s : ReqState) (err : ℤ) (reenter : Bool) :
    ReqState × List CbEvent :=
  let cbEvs : List CbEvent :=
    if s.hasCallback then [CbEvent.notify err] else []
  let reenterFires : Bool := reenter && !cbEvs.isEmpty && s.hasDestroy
  let s2 := if reenterFires then { s with hasDestroy := false } else s
  ((freeRequest s2).1,
    cbEvs ++ (if reenterFires then [CbEvent.destroy] else []) ++
      (freeRequest s2).2)

/-- `start_next_scan_request` for an already granted request: nothing
while a scan is running on the radio; otherwise send the head trigger
command (`sendOk`), failing the request with `-EIO` when the send
fails or no command is left (`-ENOMSG`). -/
def start_next_step (s : ReqState) (sendOk reenter : Bool) :
    ReqState × List CbEvent :=
  if s.scState ≠ ScanState.notRunning then (s, [])
  else if s.cmds ≠ 0 ∧ sendOk then ({ s with startCmd := true }, [])
  else scan_request_failed_step s (-5) reenter

/-- The per-label transition of a live (non-freed) request.
`grant`: the work queue grants this pending item and runs its do_work,
start_next_scan_request.  `ackOk`: scan_request_triggered, success —
record state, pop the sent command, fire `trigger` once and clear it.
`ackBusy`: scan_request_triggered, -EBUSY — an external scan occupies
the radio; mark the context PASSIVE and wait.  `ackErr`:
scan_request_triggered, any other error — fail the request.
`resultsOwn`: NEW_SCAN_RESULTS for our own triggered scan.
`resultsExt`: NEW_SCAN_RESULTS not belonging to this request (external
scan completed, or our request still waiting to be triggered); note
the early break while a results dump is in flight.  `dumpDone`:
get_scan_done for this request's dump.  `aborted`: SCAN_ABORTED.
`cancel`: scan_cancel arriving between events (the in-callback case is
the reenter parameter of the other labels).  `teardown`:
scan_context_free — cancel in-flight commands and evict every queued
request from the work queue. -/
def stepBody : ReqState → Label → Option (ReqState × List CbEvent)
  | s, Label.grant sendOk reenter =>
    if ¬s.inQueue ∨ s.running ∨ s.startCmd ∨ s.getScan then none
    else some (start_next_step { s with running := true } sendOk reenter)
  | s, Label.ackOk =>
    if ¬s.startCmd ∨ ¬s.inQueue then none
    else some
      ({ s with
          startCmd := false
          scState := if s.passive then ScanState.passive
            else ScanState.active
          triggered := true
          started := true
          cmds := s.cmds - 1
          hasTrigger := false },
        if s.hasTrigger then [CbEvent.trigger 0] else [])
  | s, Label.ackBusy =>
    if ¬s.startCmd ∨ ¬s.inQueue then none
    else some ({ s with startCmd := false, scState := ScanState.passive },
      [])
  | s, Label.ackErr err reenter =>
    if ¬s.startCmd ∨ ¬s.inQueue ∨ 0 ≤ err ∨ err = -16 then none
    else some (scan_request_failed_step { s with startCmd := false } err
      reenter)
  | s, Label.resultsOwn sendOk reenter =>
    if ¬s.inQueue ∨ ¬s.triggered then none
    else if ¬s.hasCallback then
      some (scan_finished_step { s with scState := ScanState.notRunning, triggered := false } (-125) reenter)
    else if s.cmds = 0 then
      some ({ s with scState := ScanState.notRunning, triggered := false, getScan := true }, [])
    else if s.running then
      some (start_next_step { s with scState := ScanState.notRunning, triggered := false } sendOk reenter)
    else some ({ s with scState := ScanState.notRunning, triggered := false }, [])
  | s, Label.resultsExt flush sendOk reenter =>
    if s.inQueue ∧ s.triggered then none
    else if s.getScan then
      some ({ s with scState := ScanState.notRunning }, [])
    else if s.inQueue ∧ s.started ∧ flush then
      some (scan_finished_step { s with scState := ScanState.notRunning } (-11) reenter)
    else if s.inQueue ∧ s.running then
      some (start_next_step { s with scState := ScanState.notRunning } sendOk reenter)
    else some ({ s with scState := ScanState.notRunning }, [])
  | s, Label.dumpDone reenter =>
    if ¬s.getScan then none
    else if ¬s.canceled then
      some (scan_finished_step { s with getScan := false } 0 reenter)
    else some ({ s with getScan := false }, [])
  | s, Label.aborted sendOk reenter =>
    if ¬s.inQueue then some ({ s with scState := ScanState.notRunning }, [])
    else if s.triggered then
      if s.periodic then
        some (freeRequest { s with scState := ScanState.notRunning, triggered := false })
      else
        some (scan_finished_step { s with scState := ScanState.notRunning, triggered := false } (-125) reenter)
    else if s.running then
      some (start_next_step { s with scState := ScanState.notRunning } sendOk reenter)
    else some ({ s with scState := ScanState.notRunning }, [])
  | s, Label.cancel =>
    if ¬s.inQueue then some (s, [])
    else if s.triggered then
      some ({ s with hasCallback := false, hasDestroy := false },
        if s.hasDestroy then [CbEvent.destroy] else [])
    else if s.running then
      some (freeRequest { s with canceled := true, startCmd := false, getScan := false })
    else some (freeRequest s)
  | s, Label.teardown =>
    if ¬s.inQueue then none
    else some (freeRequest { s with startCmd := false, getScan := false })

/-- One environment event applied to the request's state; `none` means
the label is not enabled there. -/
def step (s : ReqState) (l : Label) : Option (ReqState × List CbEvent) :=
  if s.freed then none else stepBody s l

/-- Run a list of environment events from a state, collecting the
callback events. -/
def run (s : ReqState) : List Label → Option (ReqState × List CbEvent)
  | [] => some (s, [])
  | l :: ls =>
    (step s l).bind fun r => (run r.1 ls).map fun r2 => (r2.1, r.2 ++ r2.2)

/-- Number of `destroy` invocations in an event trace. -/
def destroyCount (evs : List CbEvent) : ℕ :=
  (evs.filter fun e => e = CbEvent.destroy).length

/-- The `notify` invocations of a trace. -/
def notifyEvents (evs : List CbEvent) : List CbEvent :=
  evs.filter fun e =>
    match e with
    | CbEvent.notify _ => true
    | _ => false

/-- Outstanding `destroy` obligation of a state: one while the
callback pointer is still set. -/
def destroyObligation (s : ReqState) : ℕ :=
  if s.hasDestroy then 1 else 0

/-- Structural sanity of a request state between events: a live
request is in the context's queue; a freed one is gone and all its
callback pointers are cleared. -/
def ReqWF (s : ReqState) : Prop :=
  (s.freed = false → s.inQueue = true) ∧
    (s.freed = true → s.inQueue = false ∧ s.hasDestroy = false ∧
      s.hasCallback = false ∧ s.hasTrigger = false)

/-- A request as admitted by `scan_common` / `scan_owe_hidden` /
`scan_periodic_queue`: queued, not yet granted, nothing in flight,
with a destroy callback provided. -/
def admittedState (passive periodic hasTrigger hasCallback : Bool)
    (cmds : ℕ) (scs : ScanState) : ReqState :=
  { inQueue := true
    freed := false
    running := false
    startCmd := false
    getScan := false
    scState := scs
    hasTrigger := hasTrigger
    hasCallback := hasCallback
    hasDestroy := true
    canceled := false
    started := false
    triggered := false
    periodic := periodic
    passive := passive
    cmds := cmds }

lemma destroyCount_append (a b : List CbEvent) :
    destroyCount (a ++ b) = destroyCount a + destroyCount b := by
  simp [destroyCount, List.filter_append]

lemma ReqWF_live (s : ReqState) (hf : s.freed = false)
    (hq : s.inQueue = true) : ReqWF s :=
  ⟨fun _ => hq, fun hc => by rw [hf] at hc; exact Bool.noConfusion hc⟩

lemma freeRequest_balance (s : ReqState) :
    ReqWF (freeRequest s).1 ∧
      destroyCount (freeRequest s).2 + destroyObligation (freeRequest s).1 =
        destroyObligation s ∧
      (freeRequest s).1.freed = true := by
  unfold freeRequest ReqWF destroyCount destroyObligation
  cases s.hasDestroy <;> simp

lemma scan_request_failed_step_balance (s : ReqState) (err : ℤ)
    (reenter : Bool) :
    ReqWF (scan_request_failed_step s err reenter).1 ∧
      destroyCount (scan_request_failed_step s err reenter).2 +
        destroyObligation (scan_request_failed_step s err reenter).1 =
        destroyObligation s ∧
      (scan_request_failed_step s err reenter).1.freed = true := by
  unfold scan_request_failed_step freeRequest ReqWF destroyCount
    destroyObligation
  cases hT : s.hasTrigger <;> cases hC : s.hasCallback <;>
    cases hD : s.hasDestroy <;> cases reenter <;> simp [hT, hC, hD]

lemma scan_finished_step_balance (s : ReqState) (err : ℤ)
    (reenter : Bool) :
    ReqWF (scan_finished_step s err reenter).1 ∧
      destroyCount (scan_finished_step s err reenter).2 +
        destroyObligation (scan_finished_step s err reenter).1 =
        destroyObligation s ∧
      (scan_finished_step s err reenter).1.freed = true := by
  unfold scan_finished_step freeRequest ReqWF destroyCount destroyObligation
  cases hC : s.hasCallback <;> cases hD : s.hasDestroy <;>
    cases reenter <;> simp [hC, hD]

lemma start_next_step_balance (s : ReqState) (sendOk reenter : Bool)
    (hf : s.freed = false) (hq : s.inQueue = true) :
    ReqWF (start_next_step s sendOk reenter).1 ∧
      destroyCount (start_next_step s sendOk reenter).2 +
        destroyObligation (start_next_step s sendOk reenter).1 =
        destroyObligation s := by
  unfold start_next_step
  split
  · exact ⟨ReqWF_live s hf hq, by simp [destroyCount]⟩
  · split
    · exact ⟨ReqWF_live _ hf hq, by simp [destroyCount, destroyObligation]⟩
    · have h := scan_request_failed_step_balance s (-5) reenter
      exact ⟨h.1, h.2.1⟩

/-- A live request's step is the step body. -/
lemma step_live (s : ReqState) (hf : s.freed = false) (l : Label) :
    step s l = stepBody s l := by
  unfold step
  rw [if_neg]
  simp [hf]

/-- Each enabled step preserves structural sanity and the destroy
accounting: the `destroy` events it emits plus the obligation left in
the new state equal the obligation of the old state. -/
lemma step_balance (s : ReqState) (l : Label) (hWF : ReqWF s) :
    (step s l).elim True fun r =>
      ReqWF r.1 ∧ destroyCount r.2 + destroyObligation r.1 =
        destroyObligation s := by
  by_cases hfr : s.freed = true
  · simp [step, hfr]
  · replace hfr : s.freed = false := by
      cases h : s.freed
      · rfl
      · exact absurd h hfr
    have hq : s.inQueue = true := hWF.1 hfr
    rw [step_live s hfr l]
    cases l with
    | grant sendOk reenter =>
      simp only [stepBody]
      split
      · trivial
      · simp only [Option.elim]
        exact start_next_step_balance { s with running := true } sendOk
          reenter hfr hq
    | ackOk =>
      simp only [stepBody]
      split
      · trivial
      · simp only [Option.elim]
        refine ⟨ReqWF_live _ hfr hq, ?_⟩
        cases hT : s.hasTrigger <;>
          simp [hT, destroyCount, destroyObligation]
    | ackBusy =>
      simp only [stepBody]
      split
      · trivial
      · simp only [Option.elim]
        exact ⟨ReqWF_live _ hfr hq, by simp [destroyCount, destroyObligation]⟩
    | ackErr err reenter =>
      simp only [stepBody]
      split
      · trivial
      · simp only [Option.elim]
        exact ⟨(scan_request_failed_step_balance { s with startCmd := false } err reenter).1,
          (scan_request_failed_step_balance { s with startCmd := false } err reenter).2.1⟩
    | resultsOwn sendOk reenter =>
      simp only [stepBody]
      split
      · trivial
      · split
        · simp only [Option.elim]
          exact ⟨(scan_finished_step_balance { s with scState := ScanState.notRunning, triggered := false } (-125) reenter).1,
            (scan_finished_step_balance { s with scState := ScanState.notRunning, triggered := false } (-125) reenter).2.1⟩
        · split
          · simp only [Option.elim]
            exact ⟨ReqWF_live _ hfr hq,
              by simp [destroyCount, destroyObligation]⟩
          · split
            · simp only [Option.elim]
              exact start_next_step_balance { s with scState := ScanState.notRunning, triggered := false } sendOk reenter hfr hq
            · simp only [Option.elim]
              exact ⟨ReqWF_live _ hfr hq,
                by simp [destroyCount, destroyObligation]⟩
    | resultsExt flush sendOk reenter =>
      simp only [stepBody]
      split
      · trivial
      · split
        · simp only [Option.elim]
          exact ⟨ReqWF_live _ hfr hq,
            by simp [destroyCount, destroyObligation]⟩
        · split
          · simp only [Option.elim]
            exact ⟨(scan_finished_step_balance { s with scState := ScanState.notRunning } (-11) reenter).1,
              (scan_finished_step_balance { s with scState := ScanState.notRunning } (-11) reenter).2.1⟩
          · split
            · simp only [Option.elim]
              exact start_next_step_balance { s with scState := ScanState.notRunning } sendOk reenter hfr hq
            · simp only [Option.elim]
              exact ⟨ReqWF_live _ hfr hq,
                by simp [destroyCount, destroyObligation]⟩
    | dumpDone reenter =>
      simp only [stepBody]
      split
      · trivial
      · split
        · simp only [Option.elim]
          exact ⟨(scan_finished_step_balance { s with getScan := false } 0 reenter).1,
            (scan_finished_step_balance { s with getScan := false } 0 reenter).2.1⟩
        · simp only [Option.elim]
          exact ⟨ReqWF_live _ hfr hq,
            by simp [destroyCount, destroyObligation]⟩
    | aborted sendOk reenter =>
      simp only [stepBody]
      split
      · simp only [Option.elim]
        exact ⟨ReqWF_live _ hfr hq,
          by simp [destroyCount, destroyObligation]⟩
      · split
        · split
          · simp only [Option.elim]
            exact ⟨(freeRequest_balance { s with scState := ScanState.notRunning, triggered := false }).1,
              (freeRequest_balance { s with scState := ScanState.notRunning, triggered := false }).2.1⟩
          · simp only [Option.elim]
            exact ⟨(scan_finished_step_balance { s with scState := ScanState.notRunning, triggered := false } (-125) reenter).1,
              (scan_finished_step_balance { s with scState := ScanState.notRunning, triggered := false } (-125) reenter).2.1⟩
        · split
          · simp only [Option.elim]
            exact start_next_step_balance { s with scState := ScanState.notRunning } sendOk reenter hfr hq
          · simp only [Option.elim]
            exact ⟨ReqWF_live _ hfr hq,
              by simp [destroyCount, destroyObligation]⟩
    | cancel =>
      simp only [stepBody]
      split
      · simp only [Option.elim]
        exact ⟨hWF, by simp [destroyCount]⟩
      · split
        · simp only [Option.elim]
          refine ⟨ReqWF_live _ hfr hq, ?_⟩
          cases hD : s.hasDestroy <;>
            simp [hD, destroyCount, destroyObligation]
        · split
          · simp only [Option.elim]
            exact ⟨(freeRequest_balance { s with canceled := true, startCmd := false, getScan := false }).1,
              (freeRequest_balance { s with canceled := true, startCmd := false, getScan := false }).2.1⟩
          · simp only [Option.elim]
            exact ⟨(freeRequest_balance s).1, (freeRequest_balance s).2.1⟩
    | teardown =>
      simp only [stepBody]
      split
      · trivial
      · simp only [Option.elim]
        exact ⟨(freeRequest_balance { s with startCmd := false, getScan := false }).1,
          (freeRequest_balance { s with startCmd := false, getScan := false }).2.1⟩

/-- Destroy accounting along a whole run. -/
lemma run_balance (ls : List Label) : ∀ s : ReqState, ReqWF s →
    (run s ls).elim True fun r =>
      ReqWF r.1 ∧ destroyCount r.2 + destroyObligation r.1 =
        destroyObligation s := by
  induction ls with
  | nil =>
    intro s hWF
    simp [run, destroyCount, hWF]
  | cons l ls ih =>
    intro s hWF
    have hb := step_balance s l hWF
    simp only [run]
    cases h : step s l with
    | none => simp
    | some r =>
      obtain ⟨s2, evs⟩ := r
      rw [h] at hb
      simp only [Option.elim] at hb
      have ihs := ih s2 hb.1
      cases h2 : run s2 ls with
      | none => simp [h2]
      | some r2 =>
        obtain ⟨s3, evs2⟩ := r2
        rw [h2] at ihs
        simp only [Option.elim] at ihs
        simp only [Option.some_bind, h2, Option.map_some', Option.elim]
        refine ⟨ihs.1, ?_⟩
        rw [destroyCount_append]
        omega

/-- Runs compose over list append. -/
lemma run_append (l1 l2 : List Label) : ∀ s : ReqState,
    run s (l1 ++ l2) = (run s l1).bind fun r =>
      (run r.1 l2).map fun r2 => (r2.1, r.2 ++ r2.2) := by
  induction l1 with
  | nil =>
    intro s
    simp only [List.nil_append, run, Option.some_bind]
    cases h : run s l2 with
    | none => simp [h]
    | some r => simp [h]
  | cons l ls ih =>
    intro s
    simp only [List.cons_append, run]
    cases h : step s l with
    | none => simp [h]
    | some r =>
      obtain ⟨s2, evs⟩ := r
      simp only [h, Option.some_bind, List.append_eq]
      rw [ih s2]
      cases h2 : run s2 ls with
      | none => simp [h2]
      | some r2 =>
        obtain ⟨s3, evs2⟩ := r2
        simp only [h2, Option.some_bind, Option.map_some']
        cases h3 : run s3 l2 with
        | none => simp [h3]
        | some r3 => simp [h3, List.append_assoc]

/-- Context teardown is always possible for a live request and evicts
it through `scan_request_free`. -/
lemma step_teardown (s : ReqState) (hf : s.freed = false)
    (hq : s.inQueue = true) :
    step s Label.teardown =
      some (freeRequest { s with startCmd := false, getScan := false }) := by
  rw [step_live s hf Label.teardown]
  simp only [stepBody]
  rw [if_neg (show ¬¬s.inQueue = true by simp [hq])]

end Scan

/-- C3: for an active hidden-network-discovery request with `h` hidden
known networks and per-scan SSID limit `m` (`1 ≤ m ≤ 255`, the source
counter being a uint8), `scan_cmds_add` produces `⌈(h+1)/m⌉` trigger
commands; the SSID sub-lists are closed and the command pushed each
time `m` SSIDs have been appended, a new trigger is built with the
FLUSH flag suppressed, the wildcard empty SSID ends the final command
(so the sub-lists concatenate to the hidden SSIDs plus the wildcard,
and every sub-list but the last carries exactly `m` SSIDs), and the
FLUSH flag is carried by the first command only (when requested at
all). -/
theorem C3_hidden_discovery_batching (w : Scan.Wiphy) (mrd : Bool)
    (p : Scan.ScanParameters) (nets : List Scan.NetworkInfo)
    (hm1 : 1 ≤ w.maxNumSsidsPerScan) (hm255 : w.maxNumSsidsPerScan ≤ 255)
    (hssid : p.ssid = none) :
    (Scan.scan_cmds_add w mrd false p nets).length =
        (((nets.filter fun n => n.isHidden).map fun n => n.ssid).length + 1 +
          (w.maxNumSsidsPerScan - 1)) / w.maxNumSsidsPerScan ∧
      (Scan.scan_cmds_add w mrd false p nets).map Scan.msgSsidsOf =
        Scan.ssidChunks w.maxNumSsidsPerScan [] w.maxNumSsidsPerScan
          ((nets.filter fun n => n.isHidden).map fun n => n.ssid) ∧
      ((Scan.scan_cmds_add w mrd false p nets).map Scan.msgSsidsOf).flatten =
        ((nets.filter fun n => n.isHidden).map fun n => n.ssid) ++ [[]] ∧
      (∀ l ∈ ((Scan.scan_cmds_add w mrd false p nets).map
          Scan.msgSsidsOf).dropLast, l.length = w.maxNumSsidsPerScan) ∧
      (Scan.scan_cmds_add w mrd false p nets).map Scan.msgFlushFlag =
        p.flush :: List.replicate
          ((((nets.filter fun n => n.isHidden).map fun n => n.ssid).length) /
            w.maxNumSsidsPerScan) false := by
  have hm0 : 0 < w.maxNumSsidsPerScan := hm1
  rw [Scan.scan_cmds_add_active_hidden w mrd p nets hssid]
  obtain ⟨hlen, hssids, hflush⟩ :=
    Scan.cmds_add_hidden_master w mrd p hm255
      ((nets.filter fun n => n.isHidden).map fun n => n.ssid)
      { cmds := [], curBase := Scan.scan_build_cmd w mrd false false p,
        curSsids := [], canAppend := w.maxNumSsidsPerScan }
      hm1 (le_refl _) (Scan.msgSsidsOf_scan_build_cmd w mrd false false p)
  dsimp only at hlen hssids hflush
  have ediv : (((nets.filter fun n => n.isHidden).map fun n => n.ssid).length +
      (w.maxNumSsidsPerScan - w.maxNumSsidsPerScan)) / w.maxNumSsidsPerScan =
      ((nets.filter fun n => n.isHidden).map fun n => n.ssid).length /
        w.maxNumSsidsPerScan := by
    rw [Nat.sub_self, Nat.add_zero]
  have ediv2 : (((nets.filter fun n => n.isHidden).map fun n => n.ssid).length +
      1 + (w.maxNumSsidsPerScan - 1)) / w.maxNumSsidsPerScan =
      ((nets.filter fun n => n.isHidden).map fun n => n.ssid).length /
        w.maxNumSsidsPerScan + 1 := by
    have e : ((nets.filter fun n => n.isHidden).map fun n => n.ssid).length +
        1 + (w.maxNumSsidsPerScan - 1) =
        ((nets.filter fun n => n.isHidden).map fun n => n.ssid).length +
          w.maxNumSsidsPerScan := by omega
    rw [e, Nat.add_div_right _ hm0]
  refine ⟨?_, ?_, ?_, ?_, ?_⟩
  · rw [hlen, ediv, ediv2]
    simp only [List.length_nil]
    omega
  · rw [hssids]
    simp only [List.map_nil, List.nil_append]
  · rw [hssids]
    simp [Scan.ssidChunks_flatten]
  · rw [hssids]
    simp only [List.map_nil, List.nil_append]
    exact Scan.ssidChunks_dropLast_length w.maxNumSsidsPerScan
      ((nets.filter fun n => n.isHidden).map fun n => n.ssid) [] _
      hm1 (by simp)
  · rw [hflush, ediv]
    rw [Scan.msgFlushFlag_scan_build_cmd]
    simp

/-- Concrete wiphy, parameters and known-network list matching
scenario S2 of the spec: 5 hidden SSIDs (A..E), max SSIDs per scan 2,
flush requested. -/
def exWiphyS2 : Scan.Wiphy :=
  { maxScanIeLen := 0, extCapa := [], maxNumSsidsPerScan := 2,
    canRandomizeMacAddr := false, hasScanRandomSn := false,
    hasSetScanDwell := false, supportedRates2ghz := none }

def exParamsS2 : Scan.ScanParameters := { flush := true }

def exNetsS2 : List Scan.NetworkInfo :=
  [⟨[65], true⟩, ⟨[66], true⟩, ⟨[67], true⟩, ⟨[68], true⟩, ⟨[69], true⟩]

/-- C3 witness: the theorem applied at scenario S2 (5 hidden SSIDs
A..E, `m = 2`, flush requested), together with the concrete evaluation
of the three resulting triggers: SSID sub-lists (A,B), (C,D),
(E, wildcard) and FLUSH only on the first. -/
theorem C3_hidden_discovery_batching_witness :
    ((Scan.scan_cmds_add exWiphyS2 false false exParamsS2 exNetsS2).map
        Scan.msgSsidsOf =
      Scan.ssidChunks 2 [] 2 [[65], [66], [67], [68], [69]]) ∧
    (Scan.scan_cmds_add exWiphyS2 false false exParamsS2 exNetsS2).map
        Scan.msgSsidsOf =
      [[[65], [66]], [[67], [68]], [[69], []]] ∧
    (Scan.scan_cmds_add exWiphyS2 false false exParamsS2 exNetsS2).length = 3 ∧
    (Scan.scan_cmds_add exWiphyS2 false false exParamsS2 exNetsS2).map
        Scan.msgFlushFlag = [true, false, false] :=
  ⟨(C3_hidden_discovery_batching exWiphyS2 false exParamsS2 exNetsS2
      (by decide) (by decide) rfl).2.1,
    by decide, by decide, by decide⟩

/-- C6 counterexample: with 2.4 GHz supported rates
`S = {2, 4, 11, 22}` (all four CCK rates) and `no_cck_rates` set, the
difference `S \ {2,4,11,22}` is empty, yet the no-CCK clause is NOT
omitted from the message: the TX_NO_CCK_RATE flag attribute was
appended before the rates were examined, and the built trigger is
exactly `[wdev, TX_NO_CCK_RATE]` (the `goto done` also skips the
dwell attributes although the radio supports dwell control and a
duration was set).  Only the supported-rates attribute is omitted. -/
theorem C6_counterexample :
    Scan.scan_cck_filter [2, 4, 11, 22] = [] ∧
    Scan.scan_build_cmd
        { maxScanIeLen := 0, extCapa := [], maxNumSsidsPerScan := 2,
          canRandomizeMacAddr := false, hasScanRandomSn := false,
          hasSetScanDwell := true, supportedRates2ghz := some [2, 4, 11, 22] }
        false false false
        { no_cck_rates := true, duration := 5, duration_mandatory := true } =
      [Scan.Attr.wdev, Scan.Attr.txNoCckRate] := by
  constructor <;> decide

/-- C6 (amended): for every trigger command built with `no_cck_rates`
set and any 2.4 GHz supported-rate set S reported by the radio, the
message carries exactly `S \ {2,4,11,22}` in its supported-rates
attribute; if that difference is empty, the supported-rates attribute
is omitted — but the TX_NO_CCK_RATE flag attribute itself is attached
in either case. -/
theorem C6_no_cck_rates (w : Scan.Wiphy) (mrd ig pas : Bool)
    (p : Scan.ScanParameters) (S : List ℕ) (hcck : p.no_cck_rates = true)
    (hS : w.supportedRates2ghz = some S) :
    (Scan.scan_cck_filter S ≠ [] →
      Scan.msgSuppRatesOf (Scan.scan_build_cmd w mrd ig pas p) =
        [(Scan.NL80211_BAND_2GHZ, Scan.scan_cck_filter S)]) ∧
    (Scan.scan_cck_filter S = [] →
      Scan.msgSuppRatesOf (Scan.scan_build_cmd w mrd ig pas p) = []) ∧
    Scan.Attr.txNoCckRate ∈ Scan.scan_build_cmd w mrd ig pas p := by
  refine ⟨?_, ?_, Scan.txNoCckRate_mem_scan_build_cmd w mrd ig pas p hcck⟩ <;>
    intro h <;>
    rw [Scan.msgSuppRatesOf_scan_build_cmd] <;>
    unfold Scan.scan_cmd_cck_attrs <;>
    simp [hcck, hS, h, Scan.msgSuppRatesOf]

/-- C6 witness: the amended theorem applied at the concrete rate set
`S = {2, 4, 11, 22, 12, 18}`: the message carries exactly the OFDM
rates `{12, 18}` and the TX_NO_CCK_RATE flag. -/
theorem C6_no_cck_rates_witness :
    Scan.msgSuppRatesOf (Scan.scan_build_cmd
        { maxScanIeLen := 0, extCapa := [], maxNumSsidsPerScan := 2,
          canRandomizeMacAddr := false, hasScanRandomSn := false,
          hasSetScanDwell := false,
          supportedRates2ghz := some [2, 4, 11, 22, 12, 18] }
        false false false { no_cck_rates := true }) =
      [(Scan.NL80211_BAND_2GHZ, Scan.scan_cck_filter [2, 4, 11, 22, 12, 18])] ∧
    Scan.Attr.txNoCckRate ∈ Scan.scan_build_cmd
        { maxScanIeLen := 0, extCapa := [], maxNumSsidsPerScan := 2,
          canRandomizeMacAddr := false, hasScanRandomSn := false,
          hasSetScanDwell := false,
          supportedRates2ghz := some [2, 4, 11, 22, 12, 18] }
        false false false { no_cck_rates := true } :=
  ⟨(C6_no_cck_rates _ false false false _ [2, 4, 11, 22, 12, 18] rfl rfl).1
      (by decide),
    (C6_no_cck_rates _ false false false _ [2, 4, 11, 22, 12, 18] rfl
      rfl).2.2⟩

/-- C9: the IE parser rejects any SSID element whose length exceeds
32 — the whole element list is treated as malformed (first conjunct,
stated through `ie_tlv_parse` for any raw byte input) — and
consequently every BSS record the attribute builder ever produces
satisfies `ssid_len ≤ 32` (second conjunct; a record is only produced
on the `some` path). -/
theorem C9_ssid_length_bound :
    (∀ (data : List ℕ) (d : List ℕ) (bss : Scan.ScanBss),
        (Scan.IE_TYPE_SSID, d) ∈ Scan.ie_tlv_parse data → 32 < d.length →
        Scan.scan_parse_bss_information_elements bss data = none) ∧
      ∀ (est : Option ℕ) (attrs : List Scan.BssAttr),
        (Scan.scan_parse_attr_bss est attrs).elim True
          (fun r => r.1.ssid_len ≤ 32) := by
  constructor
  · intro data d bss hmem hlen
    exact Scan.scan_parse_bss_ies_loop_reject (Scan.ie_tlv_parse data) bss
      false d hmem hlen
  · intro est attrs
    rcases hres : Scan.scan_parse_attr_bss est attrs with _ | ⟨r1, r2⟩
    · simp
    · simp only [Option.elim]
      unfold Scan.scan_parse_attr_bss at hres
      rcases hloop : Scan.scan_parse_attr_bss_loop {} none none 0 attrs with
        _ | ⟨bss1, ies, bies, seen⟩
      · rw [hloop] at hres
        exact Option.noConfusion hres
      · rw [hloop] at hres
        obtain ⟨hsl, hsw⟩ :=
          Scan.scan_parse_attr_bss_loop_ssid_fields attrs {} none none 0
            (bss1, ies, bies, seen) hloop
        have hsl0 : bss1.ssid_len = 0 := hsl
        rcases ies with _ | l
        · dsimp only at hres
          simp only [Option.some.injEq, Prod.mk.injEq] at hres
          obtain ⟨e1, _⟩ := hres
          rw [← e1, (Scan.scan_attr_bss_frame_fixup_ssid bss1 none bies).1,
            hsl0]
          omega
        · dsimp only at hres
          rcases hparse : Scan.scan_parse_bss_information_elements
              (Scan.scan_attr_bss_frame_fixup bss1 (some l) bies) l with
            _ | ⟨bss4, hsOut⟩
          · rw [hparse] at hres
            exact Option.noConfusion hres
          · rw [hparse] at hres
            cases hsOut with
            | false => simp at hres
            | true =>
              simp only [if_pos rfl, Option.some.injEq, Prod.mk.injEq] at hres
              obtain ⟨hb4, _⟩ :=
                Scan.scan_parse_bss_ies_loop_accept _ _ _ _
                  (fun hh => absurd hh (by simp)) hparse
              obtain ⟨rfl, rfl⟩ := hres
              exact hb4

/-- C9 witness: the theorem applied at a concrete oversized SSID
element (tag 0, length 33) — the whole element list is malformed — and
at a concrete well-formed blob carrying the 3-byte SSID "ABC". -/
theorem C9_ssid_length_bound_witness :
    Scan.scan_parse_bss_information_elements {}
        (Scan.IE_TYPE_SSID :: 33 :: List.replicate 33 65) = none ∧
      (Scan.scan_parse_attr_bss none
          [Scan.BssAttr.informationElements [0, 3, 65, 66, 67]]).elim True
        (fun r => r.1.ssid_len ≤ 32) :=
  ⟨C9_ssid_length_bound.1 (Scan.IE_TYPE_SSID :: 33 :: List.replicate 33 65)
      (List.replicate 33 65) {} (by decide) (by decide),
    C9_ssid_length_bound.2 none
      [Scan.BssAttr.informationElements [0, 3, 65, 66, 67]]⟩

/-- C8 counterexample: a scan-result attribute blob with no
information-elements attribute at all (here just a BSSID) produces a
record — it is not rejected as malformed — even though no SSID element
was ever observed; `get_scan_callback` inserts every produced record
into the result list. -/
theorem C8_counterexample :
    (Scan.scan_parse_attr_bss none
        [Scan.BssAttr.bssid [1, 2, 3, 4, 5, 6]]).isSome = true ∧
      (Scan.scan_parse_attr_bss none
          [Scan.BssAttr.bssid [1, 2, 3, 4, 5, 6]]).map
        (fun r => r.1.sawSsidIe) = some false := by
  constructor <;> decide

/-- C8 (amended): for every scan-result attribute blob that contains
an information-elements attribute, the BSS builder either produces a
record whose information elements contained an SSID element or signals
malformed (`none`) and produces no record.  (Without any
information-elements attribute the builder returns a record in which
no SSID element was ever observed.) -/
theorem C8_bss_requires_ssid (est : Option ℕ) (attrs : List Scan.BssAttr)
    (hie : ∃ d, Scan.BssAttr.informationElements d ∈ attrs) :
    (Scan.scan_parse_attr_bss est attrs).elim True
      (fun r => r.1.sawSsidIe = true) := by
  rcases hres : Scan.scan_parse_attr_bss est attrs with _ | ⟨r1, r2⟩
  · simp
  · simp only [Option.elim]
    unfold Scan.scan_parse_attr_bss at hres
    rcases hloop : Scan.scan_parse_attr_bss_loop {} none none 0 attrs with
      _ | ⟨bss1, ies, bies, seen⟩
    · rw [hloop] at hres
      exact Option.noConfusion hres
    · rw [hloop] at hres
      have hsome := Scan.scan_parse_attr_bss_loop_ies_some attrs {} none none 0
        _ hloop (Or.inl hie)
      rcases ies with _ | l
      · simp at hsome
      · dsimp only at hres
        rcases hparse : Scan.scan_parse_bss_information_elements
            (Scan.scan_attr_bss_frame_fixup bss1 (some l) bies) l with
          _ | ⟨bss4, hsOut⟩
        · rw [hparse] at hres
          exact Option.noConfusion hres
        · rw [hparse] at hres
          cases hsOut with
          | false => simp at hres
          | true =>
            simp only [if_pos rfl, Option.some.injEq, Prod.mk.injEq] at hres
            obtain ⟨_, hsaw⟩ :=
              Scan.scan_parse_bss_ies_loop_accept _ _ _ _
                (fun hh => absurd hh (by simp)) hparse
            obtain ⟨rfl, rfl⟩ := hres
            exact hsaw

/-- C8 witness: the amended theorem applied at a concrete blob whose
information elements carry the SSID "ABC". -/
theorem C8_bss_requires_ssid_witness :
    (Scan.scan_parse_attr_bss (some 54000000)
        [Scan.BssAttr.bssid [1, 2, 3, 4, 5, 6],
          Scan.BssAttr.informationElements [0, 3, 65, 66, 67]]).elim True
      (fun r => r.1.sawSsidIe = true) :=
  C8_bss_requires_ssid (some 54000000)
    [Scan.BssAttr.bssid [1, 2, 3, 4, 5, 6],
      Scan.BssAttr.informationElements [0, 3, 65, 66, 67]]
    ⟨[0, 3, 65, 66, 67], by decide⟩

/-- C10: for every wdev id with no registered scan context, every
request-creating public call (`scan_passive`, `scan_passive_full`,
`scan_active`, `scan_active_full` — all thin wrappers around
`scan_common` — and `scan_owe_hidden`) returns the invalid id 0
leaving the module state untouched (so no request is queued and no
callback can ever fire for it), and `scan_cancel` returns `false`
without side effects and without invoking any destroy callback. -/
theorem C10_no_context_rejected (st : Scan.ScanModule) (wdev : ℕ)
    (h : st.contexts.find? (fun sc => sc.wdev_id = wdev) = none) :
    (∀ (mrd passive : Bool) (p : Scan.ScanParameters)
        (nets : List Scan.NetworkInfo) (t n dtr : Bool),
        Scan.scan_common st mrd wdev passive p nets t n dtr = (0, st)) ∧
      (∀ (mrd : Bool) (list : List Scan.OweBssEntry) (t n dtr : Bool),
        Scan.scan_owe_hidden st mrd wdev list t n dtr = (0, st)) ∧
      ∀ id : ℕ, Scan.scan_cancel st wdev id = (false, st, []) := by
  refine ⟨?_, ?_, ?_⟩
  · intro mrd passive p nets t n dtr
    unfold Scan.scan_common
    rw [h]
  · intro mrd list t n dtr
    unfold Scan.scan_owe_hidden
    rw [h]
  · intro id
    unfold Scan.scan_cancel
    rw [h]

/-- A one-context module for the C10 witness: only wdev 1 is
registered. -/
def exModuleC10 : Scan.ScanModule :=
  ⟨[⟨1, exWiphyS2, Scan.ScanState.notRunning, [], 0, 0, 1, 0⟩]⟩

/-- C10 witness: the theorem applied to a module holding only a
context for wdev 1, queried at wdev 2, with concrete calls. -/
theorem C10_no_context_rejected_witness :
    Scan.scan_common exModuleC10 false 2 true {} [] true true true =
        (0, exModuleC10) ∧
      Scan.scan_owe_hidden exModuleC10 false 2 [] true true true =
        (0, exModuleC10) ∧
      Scan.scan_cancel exModuleC10 2 7 = (false, exModuleC10, []) :=
  ⟨(C10_no_context_rejected exModuleC10 2 (by decide)).1 false true {} []
      true true true,
    (C10_no_context_rejected exModuleC10 2 (by decide)).2.1 false [] true
      true true,
    (C10_no_context_rejected exModuleC10 2 (by decide)).2.2 7⟩

/-- C2: for every BSS record, the computed rank equals
`data_rate / 2_340_000_000 * 65535`, multiplied by `RANK_5G_FACTOR`
when `frequency > 4000`, then by 0.8 when `utilization ≥ 192` or by
1.2 when `utilization ≤ 63`, cast to an unsigned integer saturating at
65535; the result depends only on
`(data_rate, frequency, utilization, RANK_5G_FACTOR)` (both sides are
functions of exactly these four inputs) and is bounded by 65535. -/
theorem C2_rank_matches_formula_and_saturates (r5 : ℚ) (dr f u : ℕ) :
    Scan.scan_bss_compute_rank r5 dr f u = Scan.rankSpecFormula r5 dr f u ∧
    Scan.scan_bss_compute_rank r5 dr f u ≤ 65535 := by
  simp only [Scan.scan_bss_compute_rank, Scan.rankSpecFormula]
  exact ⟨Scan.ite_saturate_eq_min _, Scan.ite_saturate_le _⟩

/-- C2 witness: the theorem applied at the concrete BSS
`(data_rate, frequency, utilization) = (866000000, 5200, 10)` with
`RANK_5G_FACTOR = 6/5`, and the concrete rank value checked. -/
theorem C2_rank_matches_formula_and_saturates_witness :
    Scan.scan_bss_compute_rank (6 / 5) 866000000 5200 10 =
        Scan.rankSpecFormula (6 / 5) 866000000 5200 10 ∧
      Scan.scan_bss_compute_rank (6 / 5) 866000000 5200 10 ≤ 65535 :=
  C2_rank_matches_formula_and_saturates (6 / 5) 866000000 5200 10

/-- C5 counterexample: with the legal configuration
`InitialPeriodicScanInterval = 40000`, `MaximumPeriodicScanInterval =
65535` (both already within the 65535 clamp), the very first backoff
step *decreases* the interval: `sp.interval *= 2` is 16-bit
arithmetic, so 2 * 40000 wraps to 14464, which is below
`SCAN_MAX_INTERVAL` and therefore stored.  The sequence of intervals
is not monotonically non-decreasing and leaves
`[SCAN_INIT_INTERVAL, SCAN_MAX_INTERVAL]`. -/
theorem C5_counterexample :
    Scan.scan_periodic_intervals (Scan.scan_init_clamp 65535)
        (Scan.scan_init_clamp 40000) 1 = 14464 ∧
      Scan.scan_periodic_intervals (Scan.scan_init_clamp 65535)
          (Scan.scan_init_clamp 40000) 1 <
        Scan.scan_periodic_intervals (Scan.scan_init_clamp 65535)
          (Scan.scan_init_clamp 40000) 0 := by
  constructor <;> decide

/-- C5 (amended): provided `SCAN_INIT_INTERVAL ≤ SCAN_MAX_INTERVAL`
and `SCAN_MAX_INTERVAL ≤ 32767` (so the 16-bit doubling cannot wrap;
both hold for the defaults 10 and 300), every backoff step doubles the
stored interval saturating at `SCAN_MAX_INTERVAL`, and the sequence of
intervals is monotonically non-decreasing and stays within
`[SCAN_INIT_INTERVAL, SCAN_MAX_INTERVAL]`. -/
theorem C5_periodic_backoff_monotone_bounded (maxI initI : ℕ)
    (hinit : initI ≤ maxI) (hmax : maxI ≤ 32767) (n : ℕ) :
    Scan.scan_periodic_intervals maxI initI n ≤
        Scan.scan_periodic_intervals maxI initI (n + 1) ∧
      initI ≤ Scan.scan_periodic_intervals maxI initI n ∧
      Scan.scan_periodic_intervals maxI initI n ≤ maxI ∧
      Scan.scan_periodic_intervals maxI initI (n + 1) =
        min (2 * Scan.scan_periodic_intervals maxI initI n) maxI := by
  induction n with
  | zero =>
    have h := Scan.scan_periodic_backoff_eq_min maxI initI hinit hmax
    simp only [Scan.scan_periodic_intervals] at h ⊢
    omega
  | succ n ih =>
    obtain ⟨hmono, hlo, hhi, heq⟩ := ih
    simp only [Scan.scan_periodic_intervals] at heq ⊢
    have hle : Scan.scan_periodic_backoff maxI
        (Scan.scan_periodic_intervals maxI initI n) ≤ maxI := by omega
    have h := Scan.scan_periodic_backoff_eq_min maxI
      (Scan.scan_periodic_backoff maxI (Scan.scan_periodic_intervals maxI initI n))
      hle hmax
    omega

/-- C5 witness: the amended theorem applied at the default
configuration `SCAN_INIT_INTERVAL = 10`, `SCAN_MAX_INTERVAL = 300`
after one backoff step, together with the concrete sequence values. -/
theorem C5_periodic_backoff_monotone_bounded_witness :
    (Scan.scan_periodic_intervals 300 10 1 ≤
        Scan.scan_periodic_intervals 300 10 2 ∧
      10 ≤ Scan.scan_periodic_intervals 300 10 1 ∧
      Scan.scan_periodic_intervals 300 10 1 ≤ 300 ∧
      Scan.scan_periodic_intervals 300 10 2 =
        min (2 * Scan.scan_periodic_intervals 300 10 1) 300) :=
  C5_periodic_backoff_monotone_bounded 300 10 (by decide) (by decide) 1


/-- C1: over the per-request lifecycle model of src/scan.c (admission,
start_next_scan_request, scan_request_triggered, scan_notify,
get_scan_done, scan_cancel and scan_context_free), every event
sequence from an admitted request with a destroy callback fires
`destroy` at most once, exactly once whenever the request has been
freed, and tearing the context down from any live point completes the
lifetime with exactly one `destroy` overall. -/
theorem C1_destroy_exactly_once
    (passive periodic hasTrigger hasCallback : Bool) (cmds : ℕ)
    (scs : Scan.ScanState) (ls : List Scan.Label) :
    (Scan.run (Scan.admittedState passive periodic hasTrigger hasCallback
        cmds scs) ls).elim True
      (fun r =>
        Scan.destroyCount r.2 ≤ 1 ∧
          (r.1.freed = true → Scan.destroyCount r.2 = 1) ∧
          (r.1.freed = false →
            (Scan.run (Scan.admittedState passive periodic hasTrigger
                hasCallback cmds scs)
                (ls ++ [Scan.Label.teardown])).elim False
              (fun r2 => Scan.destroyCount r2.2 = 1))) := by
  have hWF0 : Scan.ReqWF (Scan.admittedState passive periodic hasTrigger
      hasCallback cmds scs) :=
    ⟨fun _ => rfl, fun hc => Bool.noConfusion hc⟩
  have hb := Scan.run_balance ls _ hWF0
  cases hrun : Scan.run (Scan.admittedState passive periodic hasTrigger
      hasCallback cmds scs) ls with
  | none => trivial
  | some r =>
    obtain ⟨s1, evs⟩ := r
    rw [hrun] at hb
    simp only [Option.elim] at hb
    simp only [Option.elim]
    obtain ⟨hWF1, hbal⟩ := hb
    have hob0 : Scan.destroyObligation (Scan.admittedState passive periodic
        hasTrigger hasCallback cmds scs) = 1 := rfl
    rw [hob0] at hbal
    refine ⟨by omega, ?_, ?_⟩
    · intro hfreed
      have hd := (hWF1.2 hfreed).2.1
      have h0 : Scan.destroyObligation s1 = 0 := by
        simp [Scan.destroyObligation, hd]
      omega
    · intro hlive
      have hq1 : s1.inQueue = true := hWF1.1 hlive
      rw [Scan.run_append, hrun]
      simp only [Option.some_bind]
      have hst := Scan.step_teardown s1 hlive hq1
      simp only [Scan.run, hst, Option.some_bind, Option.map_some',
        Option.elim, List.append_nil]
      rw [Scan.destroyCount_append]
      have hc2 : Scan.destroyCount
          (Scan.freeRequest { s1 with startCmd := false, getScan := false }).2 =
          Scan.destroyObligation s1 := by
        cases hD : s1.hasDestroy <;>
          simp [Scan.freeRequest, Scan.destroyCount,
            Scan.destroyObligation, hD]
      rw [hc2]
      exact hbal

/-- C1 witness: the lifecycle theorem applied to the concrete
passive-scan trace grant, trigger ack, own results, dump done. -/
theorem C1_destroy_exactly_once_witness :
    (Scan.run (Scan.admittedState false false true true 1
        Scan.ScanState.notRunning)
        [Scan.Label.grant true false, Scan.Label.ackOk,
         Scan.Label.resultsOwn true false, Scan.Label.dumpDone false]).elim
      True
      (fun r =>
        Scan.destroyCount r.2 ≤ 1 ∧
          (r.1.freed = true → Scan.destroyCount r.2 = 1) ∧
          (r.1.freed = false →
            (Scan.run (Scan.admittedState false false true true 1
                Scan.ScanState.notRunning)
                ([Scan.Label.grant true false, Scan.Label.ackOk,
                  Scan.Label.resultsOwn true false,
                  Scan.Label.dumpDone false] ++
                  [Scan.Label.teardown])).elim False
              (fun r2 => Scan.destroyCount r2.2 = 1))) :=
  C1_destroy_exactly_once false false true true 1 Scan.ScanState.notRunning
    [Scan.Label.grant true false, Scan.Label.ackOk,
     Scan.Label.resultsOwn true false, Scan.Label.dumpDone false]

def exBusyState : Scan.ReqState :=
  { Scan.admittedState false false true true 1 Scan.ScanState.notRunning with running := true, startCmd := true }

/-- C4: a trigger answered with -EBUSY does not fail the request and
fires no user callback — the context merely turns PASSIVE and the
request stays queued; on the busy-bounce scenario S3 (grant, busy
bounce, external completion retriggering, successful ack, own results,
dump) `notify(0)` fires exactly once; and after the bounce an external
completion without FLUSH resends the trigger. -/
theorem C4_busy_marks_passive_and_retries (s : Scan.ReqState)
    (hf : s.freed = false) (hq : s.inQueue = true)
    (hc : s.startCmd = true) :
    (Scan.step s Scan.Label.ackBusy =
        some ({ s with startCmd := false, scState := Scan.ScanState.passive }, [])) ∧
      ((Scan.run (Scan.admittedState false false true true 1
          Scan.ScanState.notRunning)
          [Scan.Label.grant true false, Scan.Label.ackBusy]).map
        (fun r => (r.1.inQueue, r.1.freed, r.1.scState, r.2)) =
        some (true, false, Scan.ScanState.passive, [])) ∧
      (((Scan.run (Scan.admittedState false false true true 1
          Scan.ScanState.notRunning)
          [Scan.Label.grant true false, Scan.Label.ackBusy]).bind
        (fun r => Scan.step r.1 (Scan.Label.resultsExt false true false))).map
        (fun r2 => (r2.1.startCmd, r2.1.inQueue, r2.2)) =
        some (true, true, [])) ∧
      ((Scan.run (Scan.admittedState false false true true 1
          Scan.ScanState.notRunning)
          [Scan.Label.grant true false, Scan.Label.ackBusy,
           Scan.Label.resultsExt false true false, Scan.Label.ackOk,
           Scan.Label.resultsOwn true false,
           Scan.Label.dumpDone false]).map
        (fun r => (Scan.notifyEvents r.2, r.1.freed)) =
        some ([Scan.CbEvent.notify 0], true)) := by
  refine ⟨?_, by decide, by decide, by decide⟩
  rw [Scan.step_live s hf Scan.Label.ackBusy]
  simp only [Scan.stepBody]
  split
  · rename_i hcond
    simp [hc, hq] at hcond
  · rfl

/-- C4 witness: the busy-bounce theorem applied to a granted request
whose trigger command is in flight. -/
theorem C4_busy_marks_passive_and_retries_witness :
    Scan.step exBusyState Scan.Label.ackBusy =
      some ({ exBusyState with startCmd := false, scState := Scan.ScanState.passive }, []) :=
  (C4_busy_marks_passive_and_retries exBusyState rfl rfl rfl).1

/-- C7 counterexample: after grant, successful trigger ack and own
NEW_SCAN_RESULTS, the GET_SCAN dump is in flight for the request —
which therefore had started and is not currently triggered.  A
FLUSH-flagged external notification then takes the
get_scan_cmd_id early break of scan_notify: no notify(-EAGAIN) fires,
and the request is neither failed nor removed, contradicting the
claimed unconditional AGAIN failure. -/
theorem C7_counterexample :
    ((Scan.run (Scan.admittedState false false true true 1
        Scan.ScanState.notRunning)
        [Scan.Label.grant true false, Scan.Label.ackOk,
         Scan.Label.resultsOwn true false]).map
      (fun r =>
        (r.1.started, r.1.triggered, r.1.inQueue, r.1.getScan,
          r.1.hasCallback)) =
      some (true, false, true, true, true)) ∧
    (((Scan.run (Scan.admittedState false false true true 1
        Scan.ScanState.notRunning)
        [Scan.Label.grant true false, Scan.Label.ackOk,
         Scan.Label.resultsOwn true false]).bind
      (fun r => Scan.step r.1 (Scan.Label.resultsExt true true false))).map
      (fun r2 => (r2.2, r2.1.freed, r2.1.inQueue, r2.1.hasCallback)) =
      some ([], false, true, true)) := by
  decide

/-- C7 (amended): provided no results dump is in flight
(get_scan_cmd_id is zero), an external NEW_SCAN_RESULTS carrying FLUSH
while the current request had started but is not currently triggered
fails the request with notify(-EAGAIN) followed by its destroy and
removes it without retry; without FLUSH the request's next trigger is
resent instead and no callback fires. -/
theorem C7_flush_external_results (s : Scan.ReqState)
    (hf : s.freed = false) (hq : s.inQueue = true)
    (hst : s.started = true) (htr : s.triggered = false)
    (hgs : s.getScan = false) (hcb : s.hasCallback = true)
    (hd : s.hasDestroy = true) (hrn : s.running = true)
    (hcm : s.cmds ≠ 0) :
    ((Scan.step s (Scan.Label.resultsExt true true false)).elim False
      fun r =>
        r.2 = [Scan.CbEvent.notify (-11), Scan.CbEvent.destroy] ∧
          r.1.freed = true ∧ r.1.inQueue = false) ∧
    ((Scan.step s (Scan.Label.resultsExt false true false)).elim False
      fun r =>
        r.2 = [] ∧ r.1.startCmd = true ∧ r.1.freed = false ∧
          r.1.inQueue = true) := by
  constructor
  · rw [Scan.step_live s hf (Scan.Label.resultsExt true true false)]
    simp [Scan.stepBody, Scan.scan_finished_step, Scan.freeRequest, hq,
      htr, hgs, hst, hcb, hd]
  · rw [Scan.step_live s hf (Scan.Label.resultsExt false true false)]
    simp [Scan.stepBody, Scan.start_next_step, hq, htr, hgs, hrn, hcm, hf]

def exC7State : Scan.ReqState :=
  { Scan.admittedState false false true true 1 Scan.ScanState.active with running := true, started := true }

/-- C7 witness: the amended theorem applied to a started, granted
request with one command left and no dump in flight. -/
theorem C7_flush_external_results_witness :
    ((Scan.step exC7State (Scan.Label.resultsExt true true false)).elim
      False
      fun r =>
        r.2 = [Scan.CbEvent.notify (-11), Scan.CbEvent.destroy] ∧
          r.1.freed = true ∧ r.1.inQueue = false) ∧
    ((Scan.step exC7State (Scan.Label.resultsExt false true false)).elim
      False
      fun r =>
        r.2 = [] ∧ r.1.startCmd = true ∧ r.1.freed = false ∧
          r.1.inQueue = true) :=
  C7_flush_external_results exC7State rfl rfl rfl rfl rfl rfl rfl rfl
    (by decide)
